import Mathlib

/-!
Vulkan stitcher orchestration core (`modules/vulkan/vk_stitcher.cpp`).

A shallow embedding of the per-frame orchestration of `VKStitcher` and its private
`StitcherImpl`: the pair synchroniser (`update_blender_sync`, `start_blender`,
`start_blenders`, `geomap_done`), the adaptive geometry feedback
(`start_feature_match`, `calc_geomap_factors`, `update_geomap_factors`), the
dispatch loops (`start_geo_mappers`, `start_copier`), the entry points (`stitch_buffers`,
`start_work`) and the life cycle (`init_resource`, `configure_resource`, `stop`).

Conventions of the embedding.

* Arrays indexed by a camera or pair index (`_res.blender_sync[...]`,
  `_res.mapper_factors[...]`, ...) are total maps `Nat → _`; every access made by
  the code is at an index below the camera count.
* `float` values are exact rationals (`ℚ`): rounding is outside the model.
* `uint32_t` indices are naturals; the only arithmetic on them,
  `(idx + cam_num - 1) % cam_num` and `(idx + 1) % cam_num`, stays far below `2^32`.
* The asynchronous units (geomap, blend, copy handlers, feature matcher) are
  external: a dispatch is modelled by the status its `execute_buffer` returns
  (a field of `Env`) and by an entry appended to a dispatch log.
-/

namespace XCam

/-- Number of slots of every per-camera array (`XCAM_STITCH_MAX_CAMERAS`, stitcher.h). -/
def XCAM_STITCH_MAX_CAMERAS : Nat := 6

/-- Modelled from the spec: the status type `XCamReturn` (declared outside the two source
files); only the enumerators that `vk_stitcher.cpp` mentions are listed. -/
inductive XCamReturn where
  | XCAM_RETURN_NO_ERROR
  | XCAM_RETURN_ERROR_PARAM
  | XCAM_RETURN_ERROR_MEM
  | XCAM_RETURN_ERROR_UNKNOWN
  deriving DecidableEq, Repr

open XCamReturn

/-- Modelled from the spec: `xcam_ret_is_ok`, true exactly on the no-error status. -/
def xcam_ret_is_ok (ret : XCamReturn) : Bool :=
  decide (ret = XCAM_RETURN_NO_ERROR)

/-- Feature-match modes named by `init_feature_matchers`; `FMNone` is the enumerator
that the truth test `if (_stitcher->get_fm_mode ())` treats as false. -/
inductive FeatureMatchMode where
  | FMNone
  | FMDefault
  | FMCluster
  | FMCapi
  deriving DecidableEq, Repr

/-- Scale modes: the source names `ScaleSingleConst` only; every other enumerator takes
the `else` branch of `create_geo_mapper` and `update_geomap_factors`. -/
inductive GeoMapScaleMode where
  | ScaleSingleConst
  | ScaleOther
  deriving DecidableEq, Repr

/-- Modelled from the spec: the effect of `XCAM_ASSERT`, which is defined outside the two
source files, on the result of a function that contains one. The macro is used in
constructors, in `void` functions and in functions returning a status alike, so it
cannot return a value to the caller; the spec reads it as an active check
("Fail if range ≤ 1 pixel"). A violated assertion therefore ends the call without a
return value and without any later statement being executed; `assert_failed` records the
resource as it was at that moment. -/
inductive Outcome (σ : Type) where
  | returned (ret : XCamReturn) (res : σ)
  | assert_failed (res : σ)

/-- The struct `Rect` (declared outside the two source files), with the integer fields
the source reads and writes: `pos_x`, `pos_y`, `width`, `height`. -/
structure Rect where
  pos_x : Int
  pos_y : Int
  width : Int
  height : Int
  deriving DecidableEq, Repr

/-- The struct `Factor`: its constructor sets both components to `1.0f`. -/
structure Factor where
  x : ℚ
  y : ℚ
  deriving DecidableEq, Repr

/-- Default constructor `Factor ()`. -/
def Factor.identity : Factor := ⟨1, 1⟩

/-- The method `Factor::reset`. -/
def Factor.reset (_f : Factor) : Factor := ⟨1, 1⟩

/-- The struct `GeoMapFactors`: the two pending correction slots of one camera. -/
structure GeoMapFactors where
  left : Factor
  right : Factor
  deriving DecidableEq, Repr

/-- Modelled from the spec: `VKBlender::Sync` (vk_blender.h is not under src), the
PairSyncCounter: "integer counter per pair, target = 2, incremented by completion of
either contributing camera's Geometric Map unit, reset to 0 immediately after it reaches
target". -/
structure Sync where
  count : Nat
  threshold : Nat
  deriving DecidableEq, Repr

/-- Modelled from the spec: the constructor `new VKBlender::Sync (threshold)`, a counter
at 0 with the given target. -/
def Sync.create (threshold : Nat) : Sync := ⟨0, threshold⟩

/-- Modelled from the spec: `Sync::increment`. -/
def Sync.increment (s : Sync) : Sync := ⟨s.count + 1, s.threshold⟩

/-- Modelled from the spec: `Sync::reset`, "reset to 0". -/
def Sync.reset (s : Sync) : Sync := ⟨0, s.threshold⟩

/-- Modelled from the spec: `Sync::is_synced`, the counter has reached its target. -/
def Sync.is_synced (s : Sync) : Bool := decide (s.count = s.threshold)

/-- A video buffer, identified by a handle. -/
structure VideoBuffer where
  id : Nat
  deriving DecidableEq, Repr

/-- The struct `GeoMapParam` (with the `in_buf` / `out_buf` of `ImageHandler::Parameters`). -/
structure GeoMapParam where
  idx : Nat
  in_buf : Option VideoBuffer
  out_buf : Option VideoBuffer
  deriving DecidableEq, Repr

/-- The struct `VKBlender::BlenderParam`: two inputs and one output buffer. -/
structure BlenderParam where
  in_buf : Option VideoBuffer
  in1_buf : Option VideoBuffer
  out_buf : Option VideoBuffer
  deriving DecidableEq, Repr

/-- Modelled from the spec: the part of `VKGeoMapHandler` the stitcher touches, the
persistent GeoMapFactor read by `get_factors` and written by `set_factors`. -/
structure VKGeoMapHandler where
  factor_x : ℚ
  factor_y : ℚ
  deriving DecidableEq, Repr

/-- Modelled from the spec: `VKGeoMapHandler::set_factors`, "write new_factor back as the
camera's persistent GeoMapFactor". -/
def VKGeoMapHandler.set_factors (_m : VKGeoMapHandler) (x y : ℚ) : VKGeoMapHandler := ⟨x, y⟩

/-- The struct `Stitcher::CenterMark`. -/
structure CenterMark where
  slice_center_x : Nat
  out_center_x : Nat
  deriving DecidableEq, Repr

/-- Configuration of the `Stitcher` base object and the behaviour of the external units
during one frame. -/
structure Env where
  /-- Field `_camera_num`. -/
  camera_num : Nat
  /-- Field `_fm_mode`. -/
  fm_mode : FeatureMatchMode
  /-- Field `_scale_mode`. -/
  scale_mode : GeoMapScaleMode
  /-- Build switch `HAVE_OPENCV`. -/
  have_opencv : Bool
  /-- Field `_center_marks`. -/
  center_marks : Nat → CenterMark
  /-- What `matcher[idx]->get_crop_rect` yields after the match: left and right crop. -/
  crop_rect : Nat → Rect × Rect
  /-- What `matcher[idx]->get_current_left_offset_x` yields after the match. -/
  current_left_offset_x : Nat → ℚ
  /-- Macro `XCAM_DOUBLE_EQUAL_AROUND` (defined outside the two source files). -/
  double_equal_around : ℚ → ℚ → Bool
  /-- Status returned by `mapper[idx]->execute_buffer`. -/
  mapper_execute : Nat → XCamReturn
  /-- Status returned by `blender[idx]->execute_buffer`. -/
  blender_execute : Nat → XCamReturn
  /-- Status returned by `copiers[i]->execute_buffer`. -/
  copier_execute : Nat → XCamReturn

/-- The struct `StitcherResource` (the fields the orchestration reads or writes), with
three dispatch logs recording every `execute_buffer` call in order. -/
structure StitcherResource where
  blender_sync : Nat → Sync
  mapper_param : Nat → GeoMapParam
  blender_param : Nat → BlenderParam
  mapper : Nat → Option VKGeoMapHandler
  /-- For each copier, the source camera index given to `set_copy_area`. -/
  copiers : List Nat
  mapper_factors : Nat → GeoMapFactors
  geomap_log : List Nat
  blend_log : List Nat
  copy_log : List Nat

/-- The truth test `if (_stitcher->get_fm_mode ())`. -/
def Env.fm_enabled (env : Env) : Bool := decide (env.fm_mode ≠ FeatureMatchMode.FMNone)

/-- `StitcherImpl::update_blender_sync`. -/
def update_blender_sync (env : Env) (res : StitcherResource) (idx : Nat) : StitcherResource :=
  let cam_num := env.camera_num
  let pre_idx := (idx + cam_num - 1) % cam_num
  let res1 := { res with
    blender_sync := Function.update res.blender_sync pre_idx (res.blender_sync pre_idx).increment }
  { res1 with
    blender_sync := Function.update res1.blender_sync idx (res1.blender_sync idx).increment }

/-- One iteration of the loop of `StitcherImpl::init_blenders` (the part that sets the
blender parameters and the pair counter). -/
def init_blender (env : Env) (res : StitcherResource) (idx : Nat) : StitcherResource :=
  let next_idx := (idx + 1) % env.camera_num
  let blender_param : BlenderParam :=
    { in_buf := (res.mapper_param idx).out_buf
      in1_buf := (res.mapper_param next_idx).out_buf
      out_buf := none }
  { res with
    blender_param := Function.update res.blender_param idx blender_param
    blender_sync := Function.update res.blender_sync idx (Sync.create 2) }

/-- `StitcherImpl::init_blenders`: the loop over all camera indices. -/
def init_blenders (env : Env) (res : StitcherResource) : StitcherResource :=
  (List.range env.camera_num).foldl (init_blender env) res

/-- `StitcherImpl::calc_geomap_factors`: returns the resource with both pending slots of
camera `idx` reset, and the out-parameters `cur_left`, `cur_right`. -/
def calc_geomap_factors (res : StitcherResource) (idx : Nat)
    (last_left_factor last_right_factor : Factor) : StitcherResource × Factor × Factor :=
  let fm_left_factor := (res.mapper_factors idx).left
  let fm_right_factor := (res.mapper_factors idx).right
  let cur_left : Factor :=
    ⟨last_left_factor.x * fm_left_factor.x, last_left_factor.y * fm_left_factor.y⟩
  let cur_right : Factor :=
    ⟨last_right_factor.x * fm_right_factor.x, last_right_factor.y * fm_right_factor.y⟩
  let res1 := { res with
    mapper_factors := Function.update res.mapper_factors idx
      { res.mapper_factors idx with left := (res.mapper_factors idx).left.reset } }
  let res2 := { res1 with
    mapper_factors := Function.update res1.mapper_factors idx
      { res1.mapper_factors idx with right := (res1.mapper_factors idx).right.reset } }
  (res2, cur_left, cur_right)

/-- `StitcherImpl::update_geomap_factors`: the returned `bool` and the new resource. -/
def update_geomap_factors (env : Env) (res : StitcherResource) (idx : Nat) :
    Bool × StitcherResource :=
  match res.mapper idx with
  | none => (false, res)
  | some mapper =>
    if env.scale_mode = GeoMapScaleMode.ScaleSingleConst then
      let unify_factor : Factor := ⟨mapper.factor_x, mapper.factor_y⟩
      if env.double_equal_around unify_factor.x 0 || env.double_equal_around unify_factor.y 0 then
        (true, res)
      else
        let (res1, cur_left, cur_right) := calc_geomap_factors res idx unify_factor unify_factor
        let unify_factor : Factor :=
          ⟨(cur_left.x + cur_right.x) / 2, (cur_left.y + cur_right.y) / 2⟩
        (true, { res1 with
          mapper := Function.update res1.mapper idx
            (some (mapper.set_factors unify_factor.x unify_factor.y)) })
    else
      (false, res)

/-- The first `range` of `start_feature_match` (lines 538-540): the centre of the left
crop minus the slice centre of camera `idx`. -/
def fm_right_range (env : Env) (idx : Nat) : ℚ :=
  let left_ovlap := (env.crop_rect idx).1
  let center_x : ℚ := ((env.center_marks idx).slice_center_x : ℚ)
  let feature_center_x : ℚ := (left_ovlap.pos_x : ℚ) + (left_ovlap.width : ℚ) / 2
  feature_center_x - center_x

/-- The second `range` of `start_feature_match` (lines 546-549): the slice centre of the
right camera minus the centre of the right crop. -/
def fm_left_range (env : Env) (idx : Nat) : ℚ :=
  let right_ovlap := (env.crop_rect idx).2
  let right_idx := (idx + 1) % env.camera_num
  let center_x : ℚ := ((env.center_marks right_idx).slice_center_x : ℚ)
  let feature_center_x : ℚ := (right_ovlap.pos_x : ℚ) + (right_ovlap.width : ℚ) / 2
  center_x - feature_center_x

/-- The expression `(range + left_offsetx / 2.0f) / range` (lines 542 and 551), with the
division by `range` performed by `div`. -/
def fm_factor_x_with (div : ℚ → ℚ → ℚ) (range left_offsetx : ℚ) : ℚ :=
  div (range + left_offsetx / 2) range

/-- The expression `(range + left_offsetx / 2.0f) / range` (lines 542 and 551). -/
def fm_factor_x (range left_offsetx : ℚ) : ℚ :=
  fm_factor_x_with (fun a b => a / b) range left_offsetx

/-- Body of `StitcherImpl::start_feature_match`, the two divisions by `range` being
performed by `div`. -/
def start_feature_match_with (div : ℚ → ℚ → ℚ) (env : Env) (res : StitcherResource)
    (idx : Nat) : Outcome StitcherResource :=
  if env.have_opencv then
    let left_offsetx := env.current_left_offset_x idx
    let left_idx := idx
    let range := fm_right_range env idx
    if range > 1 then
      let right_factor : Factor := ⟨fm_factor_x_with div range left_offsetx, 1⟩
      if right_factor.x > 0 ∧ right_factor.x < 2 then
        let right_idx := (idx + 1) % env.camera_num
        let range := fm_left_range env idx
        if range > 1 then
          let left_factor : Factor := ⟨fm_factor_x_with div range left_offsetx, 1⟩
          if left_factor.x > 0 ∧ left_factor.x < 2 then
            let res1 := { res with
              mapper_factors := Function.update res.mapper_factors left_idx
                { res.mapper_factors left_idx with right := right_factor } }
            let res2 := { res1 with
              mapper_factors := Function.update res1.mapper_factors right_idx
                { res1.mapper_factors right_idx with left := left_factor } }
            Outcome.returned XCAM_RETURN_NO_ERROR res2
          else Outcome.assert_failed res
        else Outcome.assert_failed res
      else Outcome.assert_failed res
    else Outcome.assert_failed res
  else
    Outcome.returned XCAM_RETURN_ERROR_PARAM res

/-- `StitcherImpl::start_feature_match`. -/
def start_feature_match (env : Env) (res : StitcherResource) (idx : Nat) :
    Outcome StitcherResource :=
  start_feature_match_with (fun a b => a / b) env res idx

/-- `StitcherImpl::start_blender`. -/
def start_blender (env : Env) (res : StitcherResource) (out_buf : Option VideoBuffer)
    (idx : Nat) : Outcome StitcherResource :=
  let sync := res.blender_sync idx
  if !sync.is_synced then
    Outcome.returned XCAM_RETURN_NO_ERROR res
  else
    let res1 := { res with blender_sync := Function.update res.blender_sync idx sync.reset }
    let res2 := { res1 with
      blender_param := Function.update res1.blender_param idx
        { res1.blender_param idx with out_buf := out_buf } }
    let res3 := { res2 with blend_log := res2.blend_log ++ [idx] }
    let ret := env.blender_execute idx
    if !xcam_ret_is_ok ret then
      Outcome.returned ret res3
    else if env.have_opencv && env.fm_enabled then
      match start_feature_match env res3 idx with
      | Outcome.returned ret res4 =>
        if !xcam_ret_is_ok ret then Outcome.returned ret res4
        else Outcome.returned XCAM_RETURN_NO_ERROR res4
      | Outcome.assert_failed res4 => Outcome.assert_failed res4
    else
      Outcome.returned XCAM_RETURN_NO_ERROR res3

/-- `StitcherImpl::start_blenders`. -/
def start_blenders (env : Env) (res : StitcherResource) (out_buf : Option VideoBuffer)
    (idx : Nat) : Outcome StitcherResource :=
  let cam_num := env.camera_num
  let pre_idx := (idx + cam_num - 1) % cam_num
  match start_blender env res out_buf pre_idx with
  | Outcome.assert_failed res1 => Outcome.assert_failed res1
  | Outcome.returned ret res1 =>
    if !xcam_ret_is_ok ret then Outcome.returned ret res1
    else
      match start_blender env res1 out_buf idx with
      | Outcome.assert_failed res2 => Outcome.assert_failed res2
      | Outcome.returned ret res2 =>
        if !xcam_ret_is_ok ret then Outcome.returned ret res2
        else Outcome.returned XCAM_RETURN_NO_ERROR res2

/-- The loop of `StitcherImpl::start_copier` over the copiers `i, i+1, ...` still to be
visited (`rest` holds their source indices). -/
def start_copier_loop (env : Env) (out_buf : Option VideoBuffer) (idx : Nat) :
    List Nat → Nat → StitcherResource → XCamReturn × StitcherResource
  | [], _, res => (XCAM_RETURN_NO_ERROR, res)
  | copier_index :: rest, i, res =>
    if copier_index ≠ idx then
      start_copier_loop env out_buf idx rest (i + 1) res
    else
      let res1 := { res with copy_log := res.copy_log ++ [i] }
      let ret := env.copier_execute i
      if !xcam_ret_is_ok ret then (ret, res1)
      else start_copier_loop env out_buf idx rest (i + 1) res1

/-- `StitcherImpl::start_copier`. -/
def start_copier (env : Env) (res : StitcherResource) (out_buf : Option VideoBuffer)
    (idx : Nat) : XCamReturn × StitcherResource :=
  start_copier_loop env out_buf idx res.copiers 0 res

/-- `VKStitcher::geomap_done` for the completion of camera `idx`: the statuses of
`start_blenders` and `start_copier` are only logged (`CHECK_RET`). The result is `none`
when an assertion stopped the call. -/
def geomap_done (env : Env) (res : StitcherResource) (out_buf : Option VideoBuffer)
    (idx : Nat) : Option StitcherResource :=
  let res1 := update_blender_sync env res idx
  match start_blenders env res1 out_buf idx with
  | Outcome.assert_failed _ => none
  | Outcome.returned _ res2 => some (start_copier env res2 out_buf idx).2

/-- The geomap completions of one frame handled one at a time, in the given order. -/
def geomap_done_all (env : Env) (out_buf : Option VideoBuffer) :
    StitcherResource → List Nat → Option StitcherResource
  | res, [] => some res
  | res, idx :: rest =>
    match geomap_done env res out_buf idx with
    | none => none
    | some res1 => geomap_done_all env out_buf res1 rest

/-- `StitcherImpl::start_geo_mappers`: the loop from camera `idx` on (`n` iterations left). -/
def start_geo_mappers_loop (env : Env) (in_bufs : Nat → Option VideoBuffer) :
    Nat → Nat → StitcherResource → XCamReturn × StitcherResource
  | 0, _, res => (XCAM_RETURN_NO_ERROR, res)
  | n + 1, idx, res =>
    let res1 := if env.fm_enabled then (update_geomap_factors env res idx).2 else res
    let res2 := { res1 with
      mapper_param := Function.update res1.mapper_param idx
        { res1.mapper_param idx with in_buf := in_bufs idx } }
    let res3 := { res2 with geomap_log := res2.geomap_log ++ [idx] }
    let ret := env.mapper_execute idx
    if !xcam_ret_is_ok ret then (ret, res3)
    else start_geo_mappers_loop env in_bufs n (idx + 1) res3

/-- `StitcherImpl::start_geo_mappers`. -/
def start_geo_mappers (env : Env) (res : StitcherResource)
    (in_bufs : Nat → Option VideoBuffer) : XCamReturn × StitcherResource :=
  start_geo_mappers_loop env in_bufs env.camera_num 0 res

/-- The four assertions of `start_feature_match` for pair `idx`, in source order. -/
def fm_checks_pass (env : Env) (idx : Nat) : Prop :=
  fm_right_range env idx > 1 ∧
  (fm_factor_x (fm_right_range env idx) (env.current_left_offset_x idx) > 0 ∧
    fm_factor_x (fm_right_range env idx) (env.current_left_offset_x idx) < 2) ∧
  fm_left_range env idx > 1 ∧
  (fm_factor_x (fm_left_range env idx) (env.current_left_offset_x idx) > 0 ∧
    fm_factor_x (fm_left_range env idx) (env.current_left_offset_x idx) < 2)

instance (env : Env) (idx : Nat) : Decidable (fm_checks_pass env idx) := by
  unfold fm_checks_pass
  infer_instance

/-- Pair `p` is configured to read the slice buffer of camera `cam`: one of the two
inputs of its blender parameters is the output buffer of that camera's geomap parameters. -/
def blender_reads (res : StitcherResource) (p cam : Nat) : Prop :=
  (res.blender_param p).in_buf = (res.mapper_param cam).out_buf ∨
  (res.blender_param p).in1_buf = (res.mapper_param cam).out_buf

/-- Bookkeeping invariant of the pair synchroniser. `c cam` is the number of completions
of camera `cam` handled so far; pair `p` has received `c p + c ((p + 1) % N)`
contributions, its counter holds their number modulo two and its blend unit has been
dispatched once for every two of them. -/
def SyncInv (env : Env) (c : Nat → Nat) (res : StitcherResource) : Prop :=
  (∀ p, p < env.camera_num →
    (res.blender_sync p).threshold = 2 ∧
    (res.blender_sync p).count = (c p + c ((p + 1) % env.camera_num)) % 2 ∧
    res.blend_log.count p = (c p + c ((p + 1) % env.camera_num)) / 2) ∧
  ∀ p, p ∈ res.blend_log → p < env.camera_num

/-- A three-camera configuration with feature matching enabled: every slice centre is at
x = 100, every left crop is centred at x = 200, every right crop at x = 50, and the matcher
reports an offset of 4 pixels; every dispatch succeeds. -/
def sample_env : Env where
  camera_num := 3
  fm_mode := FeatureMatchMode.FMDefault
  scale_mode := GeoMapScaleMode.ScaleSingleConst
  have_opencv := true
  center_marks := fun _ => ⟨100, 0⟩
  crop_rect := fun _ => (⟨150, 0, 100, 50⟩, ⟨0, 0, 100, 50⟩)
  current_left_offset_x := fun _ => 4
  double_equal_around := fun a b => decide (a = b)
  mapper_execute := fun _ => XCAM_RETURN_NO_ERROR
  blender_execute := fun _ => XCAM_RETURN_NO_ERROR
  copier_execute := fun _ => XCAM_RETURN_NO_ERROR

/-- A freshly initialised resource: camera `i` owns slice buffer `i`, every pair counter
is at 0 with target 2, every pending slot is the identity, the persistent factor of every
camera is `(2, 3)`, and two copy units read cameras 0 and 2. -/
def sample_res : StitcherResource where
  blender_sync := fun _ => Sync.create 2
  mapper_param := fun i => ⟨i, none, some ⟨i⟩⟩
  blender_param := fun _ => ⟨none, none, none⟩
  mapper := fun _ => some ⟨2, 3⟩
  copiers := [0, 2]
  mapper_factors := fun _ => ⟨Factor.identity, Factor.identity⟩
  geomap_log := []
  blend_log := []
  copy_log := []

/-- The sample configuration with a measured offset of 200 pixels: the first range is
100, so the factor computed for the left camera is `(100 + 100) / 100 = 2`. -/
def sample_env_factor_two : Env :=
  { sample_env with current_left_offset_x := fun _ => 200 }

/-- The sample configuration with a measured offset of -200 pixels: the factor computed
for the left camera is `(100 - 100) / 100 = 0`. -/
def sample_env_factor_zero : Env :=
  { sample_env with current_left_offset_x := fun _ => -200 }

/-- The sample configuration with every left crop centred at x = 101, one pixel from the
slice centre: the first range is exactly 1. -/
def sample_env_range_one : Env :=
  { sample_env with crop_rect := fun _ => (⟨51, 0, 100, 50⟩, ⟨0, 0, 100, 50⟩) }

/-- The sample resource with the persistent factor of every camera still at the
sentinel `(0, 0)` and non-identity pending slots. -/
def sample_res_sentinel : StitcherResource :=
  { sample_res with
    mapper := fun _ => some ⟨0, 0⟩
    mapper_factors := fun _ => ⟨⟨11 / 10, 1⟩, ⟨9 / 10, 1⟩⟩ }

/-- The sample resource after a blend that produced `right_factor.x = 1.1` for camera 0:
its right pending slot holds `(1.1, 1)`, every other slot is the identity. -/
def sample_res_pending : StitcherResource :=
  { sample_res with
    mapper_factors := fun i =>
      if i = 0 then ⟨Factor.identity, ⟨11 / 10, 1⟩⟩ else ⟨Factor.identity, Factor.identity⟩ }

/-- The sample configuration with feature matching switched off. -/
def sample_env_fm_none : Env :=
  { sample_env with fm_mode := FeatureMatchMode.FMNone }

/-- One frame as seen by the stitcher: the behaviour of the external units during the
frame, the input buffers, the output buffer and the order in which geomap completions
are delivered. -/
structure Frame where
  env : Env
  in_bufs : Nat → Option VideoBuffer
  out_buf : Option VideoBuffer
  order : List Nat

/-- One frame: `start_work` runs `start_geo_mappers`, then the delivered geomap
completions are handled by `geomap_done` in order. -/
def stitch_frame (f : Frame) (res : StitcherResource) : Option StitcherResource :=
  geomap_done_all f.env f.out_buf (start_geo_mappers f.env res f.in_bufs).2 f.order

/-- A sequence of frames, each starting from the resource the previous one left. -/
def stitch_frames : List Frame → StitcherResource → Option StitcherResource
  | [], res => some res
  | f :: rest, res =>
    match stitch_frame f res with
    | none => none
    | some res1 => stitch_frames rest res1

/-- The sample configuration with the matcher reporting a zero offset for every pair. -/
def sample_env_zero_offset : Env :=
  { sample_env with current_left_offset_x := fun _ => 0 }

/-- Every blend dispatched so far has left the identity in the two pending slots it
feeds: the right slot of camera `p` and the left slot of camera `(p + 1) % N`. -/
def IdentitySlots (env : Env) (res : StitcherResource) : Prop :=
  ∀ p, p ∈ res.blend_log →
    (res.mapper_factors p).right = ⟨1, 1⟩ ∧
    (res.mapper_factors ((p + 1) % env.camera_num)).left = ⟨1, 1⟩

/-- The resource carried by an outcome: the one returned, or the one at the moment an
assertion stopped the call. -/
def Outcome.res {σ : Type} : Outcome σ → σ
  | Outcome.returned _ res => res
  | Outcome.assert_failed res => res

/-- The two operations of the feedback loop that touch a persistent factor or a pending
slot: the consumption of the pending slots of camera `idx` by `update_geomap_factors`
(next frame) and the feature match of pair `idx` (after its blend). -/
inductive FeedbackOp where
  | update (env : Env) (idx : Nat)
  | feature_match (env : Env) (idx : Nat)

/-- Effect of one feedback operation on the resource; a feature match stopped by an
assertion leaves the resource as it was at that moment. -/
def FeedbackOp.apply : FeedbackOp → StitcherResource → StitcherResource
  | FeedbackOp.update env idx, res => (update_geomap_factors env res idx).2
  | FeedbackOp.feature_match env idx, res => (start_feature_match env res idx).res

/-- A sequence of feedback operations, applied in order. -/
def feedback_run (ops : List FeedbackOp) (res : StitcherResource) : StitcherResource :=
  ops.foldl (fun r op => op.apply r) res

/-- Both components of a pending correction lie in the open interval (0, 2), the range
`start_feature_match` accepts. -/
def slot_in_range (f : Factor) : Prop :=
  0 < f.x ∧ f.x < 2 ∧ 0 < f.y ∧ f.y < 2

/-- Camera `idx` has a geomap handler with strictly positive persistent factor components
and both its pending slots are in range. -/
def FeedbackInv (res : StitcherResource) (idx : Nat) : Prop :=
  (∃ m, res.mapper idx = some m ∧ 0 < m.factor_x ∧ 0 < m.factor_y) ∧
  slot_in_range (res.mapper_factors idx).left ∧
  slot_in_range (res.mapper_factors idx).right

/-- The struct `VKStitcher::StitcherParam` (declared outside the two source files), with
the fields the source reads and writes: the input buffer array, `in_buf_num` and
`out_buf`. -/
structure StitcherParam where
  in_bufs : Nat → Option VideoBuffer
  in_buf_num : Nat
  out_buf : Option VideoBuffer

/-- `VKStitcher::start_work`: the assertion on `in_buf_num`, then `start_geo_mappers`; a
failed status is replaced by `XCAM_RETURN_ERROR_PARAM`. -/
def start_work (env : Env) (res : StitcherResource) (param : StitcherParam) :
    Outcome StitcherResource :=
  if param.in_buf_num > 0 then
    let (ret, res1) := start_geo_mappers env res param.in_bufs
    if !xcam_ret_is_ok ret then Outcome.returned XCAM_RETURN_ERROR_PARAM res1
    else Outcome.returned ret res1
  else Outcome.assert_failed res

/-- Modelled from the spec: `execute_buffer` of the handler base class (outside the two
source files), through which `stitch_buffers` reaches `start_work`; on a configured
handler it runs `start_work` on the parameters and returns its status ("a single
operation, stitch, internally driving the async pipeline"). -/
def execute_buffer (env : Env) (res : StitcherResource) (param : StitcherParam) :
    Outcome StitcherResource :=
  start_work env res param

/-- `VKStitcher::stitch_buffers`: the emptiness check, the copy of the list into the
parameter array, `execute_buffer`, and the returned status. -/
def stitch_buffers (env : Env) (res : StitcherResource) (in_bufs : List VideoBuffer)
    (out_buf : Option VideoBuffer) : Outcome StitcherResource :=
  if in_bufs.isEmpty then Outcome.returned XCAM_RETURN_ERROR_PARAM res
  else
    let param : StitcherParam :=
      { in_bufs := fun i => in_bufs.get? i
        in_buf_num := in_bufs.length
        out_buf := out_buf }
    match execute_buffer env res param with
    | Outcome.assert_failed res1 => Outcome.assert_failed res1
    | Outcome.returned ret res1 =>
      if !xcam_ret_is_ok ret then Outcome.returned ret res1
      else Outcome.returned ret res1

/-- The sample configuration without feature matching in which the geomap dispatch of
camera 1 fails with `XCAM_RETURN_ERROR_MEM`. -/
def sample_env_geomap_fails : Env :=
  { sample_env_fm_none with
    mapper_execute := fun i => if i = 1 then XCAM_RETURN_ERROR_MEM else XCAM_RETURN_NO_ERROR }

/-- The sample configuration without feature matching in which the blend dispatch of
pair 2 fails with `XCAM_RETURN_ERROR_UNKNOWN`. -/
def sample_env_blend_fails : Env :=
  { sample_env_fm_none with
    blender_execute := fun p =>
      if p = 2 then XCAM_RETURN_ERROR_UNKNOWN else XCAM_RETURN_NO_ERROR }

/-- Bookkeeping invariant of the copy stage. `c cam` is the number of completions of
camera `cam` handled so far; copy unit `i` has been dispatched once for every completion
of its source camera. -/
def CopyInv (copiers : List Nat) (c : Nat → Nat) (res : StitcherResource) : Prop :=
  res.copiers = copiers ∧
  ∀ i, res.copy_log.count i =
    match copiers.get? i with
    | some s => c s
    | none => 0

/-- The sample resource with four copy units, two of them reading camera 0. -/
def sample_res_four_copiers : StitcherResource :=
  { sample_res with copiers := [0, 0, 1, 2] }

/-- The sample configuration without feature matching in which the dispatch of copy
unit 0 fails with `XCAM_RETURN_ERROR_UNKNOWN`. -/
def sample_env_copy_fails : Env :=
  { sample_env_fm_none with
    copier_execute := fun i =>
      if i = 0 then XCAM_RETURN_ERROR_UNKNOWN else XCAM_RETURN_NO_ERROR }

/-- The constant `GEOMAP_POOL_SIZE`. -/
def GEOMAP_POOL_SIZE : Nat := 1

/-- The constant `VK_STITCHER_ALIGNMENT_X`. -/
def VK_STITCHER_ALIGNMENT_X : Nat := 16

/-- The constant `VK_STITCHER_ALIGNMENT_Y`. -/
def VK_STITCHER_ALIGNMENT_Y : Nat := 4

/-- Modelled from the spec: the macro `XCAM_ALIGN_UP` (defined outside the two source
files), rounding a size up to a multiple of the alignment ("aligned to a fixed
horizontal/vertical alignment"). -/
def XCAM_ALIGN_UP (value align : Nat) : Nat :=
  (value + align - 1) / align * align

/-- Modelled from the spec: the buffer pool of one camera (`BufferPool` is declared
outside the two source files). The pool holds the buffers that are not handed out;
`acquire` hands out a buffer, and fails when the pool holds none or has been shut down;
`shutdown` "invalidates the pool; outstanding buffers remain valid until explicitly
released but no new acquisitions succeed". -/
structure BufferPool where
  started : Bool
  free : List VideoBuffer
  deriving DecidableEq, Repr

/-- Modelled from the spec: `BufferPool::reserve` on the fresh pool of camera `idx`:
`max_count` buffers, named after the camera. -/
def BufferPool.reserve (idx max_count : Nat) : BufferPool :=
  ⟨true, (List.range max_count).map (fun k => ⟨idx * max_count + k⟩)⟩

/-- Modelled from the spec: `BufferPool::get_buffer` (the spec's `acquire`): the buffer
handed out, if any, and the pool without it. -/
def BufferPool.get_buffer (pool : BufferPool) : Option VideoBuffer × BufferPool :=
  if pool.started then
    match pool.free with
    | [] => (none, pool)
    | buf :: rest => (some buf, { pool with free := rest })
  else (none, pool)

/-- Modelled from the spec: `BufferPool::stop` (the spec's `shutdown`). -/
def BufferPool.stop (pool : BufferPool) : BufferPool :=
  { pool with started := false }

/-- Modelled from the spec: the part of `VKBlender` that `init_blenders` configures, the
output size given to `set_output_size`. -/
structure VKBlender where
  output_width : Nat
  output_height : Nat
  deriving DecidableEq, Repr

/-- The struct `ImageHandler::Parameters` (declared outside the two source files), with
the two buffer fields the source reads and writes. -/
structure Parameters where
  in_buf : Option VideoBuffer
  out_buf : Option VideoBuffer
  deriving DecidableEq, Repr

/-- Modelled from the spec: `VideoBufferInfo` after `init (format, width, height,
aligned_width, aligned_height)`. -/
structure VideoBufferInfo where
  width : Nat
  height : Nat
  aligned_width : Nat
  aligned_height : Nat
  deriving DecidableEq, Repr

/-- Configuration-time data of the `Stitcher` base object and the results of the
configuration-time collaborators, all outside the two source files: the output size
(`set_output_size`), the source camera index `in_idx` of each copy area, the statuses of
the six estimation steps of `configure_resource`, whether the pool of camera `idx` can be
reserved, and whether the lookup table of camera `idx` is accepted. -/
structure Setup where
  output_width : Nat
  output_height : Nat
  copy_areas : List Nat
  init_camera_info : XCamReturn
  estimate_round_slices : XCamReturn
  estimate_coarse_crops : XCamReturn
  mark_centers : XCamReturn
  estimate_overlap : XCamReturn
  update_copy_areas : XCamReturn
  pool_reserve : Nat → Bool
  set_lookup_table : Nat → Bool

/-- The whole of `StitcherImpl::_res`: the fields used while a frame runs (`res`) and the
fields only initialisation and `stop` touch. `copiers` in `res` keeps, for each copy
unit, the source index it was created with; `copier_released i` tells that the smart
pointer of unit `i` has been released (is null). -/
structure Pipeline where
  res : StitcherResource
  mapper_pool : Nat → Option BufferPool
  blender : Nat → Option VKBlender
  copier_param : Nat → Parameters
  copier_released : Nat → Bool

/-- The resource before initialisation: every smart pointer is null, no copy unit, every
pending slot is the identity (`Factor ()`). -/
def Pipeline.empty : Pipeline where
  res :=
    { blender_sync := fun _ => Sync.create 0
      mapper_param := fun i => ⟨i, none, none⟩
      blender_param := fun _ => ⟨none, none, none⟩
      mapper := fun _ => none
      copiers := []
      mapper_factors := fun _ => ⟨Factor.identity, Factor.identity⟩
      geomap_log := []
      blend_log := []
      copy_log := [] }
  mapper_pool := fun _ => none
  blender := fun _ => none
  copier_param := fun _ => ⟨none, none⟩
  copier_released := fun _ => false

/-- `StitcherImpl::create_geo_mapper` before its assertion: a handler in single-scale
mode (its factor at the sentinel zero, "not yet initialized by the dewarp unit"), null in
any other mode. -/
def create_geo_mapper (env : Env) : Option VKGeoMapHandler :=
  if env.scale_mode = GeoMapScaleMode.ScaleSingleConst then some ⟨0, 0⟩ else none

/-- `StitcherImpl::create_geomap_pool`: on success the pool of camera `idx` is a fresh
pool of `GEOMAP_POOL_SIZE` buffers; on failure `mapper_pool[idx]` is left as it was. -/
def create_geomap_pool (cfg : Setup) (p : Pipeline) (idx : Nat) : XCamReturn × Pipeline :=
  if cfg.pool_reserve idx then
    (XCAM_RETURN_NO_ERROR,
      { p with
        mapper_pool := Function.update p.mapper_pool idx
          (some (BufferPool.reserve idx GEOMAP_POOL_SIZE)) })
  else (XCAM_RETURN_ERROR_MEM, p)

/-- One iteration of the loop of `StitcherImpl::init_geo_mappers`. The status of
`create_geomap_pool` is not looked at; a null pool is then dereferenced and a null
buffer trips the assertion, and in both cases the call does not continue. -/
def init_geo_mapper (env : Env) (cfg : Setup) (p : Pipeline) (idx : Nat) : Outcome Pipeline :=
  match create_geo_mapper env with
  | none => Outcome.assert_failed p
  | some mapper =>
    let p1 := { p with res := { p.res with mapper := Function.update p.res.mapper idx (some mapper) } }
    let p2 := (create_geomap_pool cfg p1 idx).2
    match p2.mapper_pool idx with
    | none => Outcome.assert_failed p2
    | some pool =>
      let got := pool.get_buffer
      let p3 := { p2 with
        mapper_pool := Function.update p2.mapper_pool idx (some got.2)
        res := { p2.res with
          mapper_param := Function.update p2.res.mapper_param idx ⟨idx, none, got.1⟩ } }
      if got.1.isNone then Outcome.assert_failed p3
      else if cfg.set_lookup_table idx then Outcome.returned XCAM_RETURN_NO_ERROR p3
      else Outcome.returned XCAM_RETURN_ERROR_UNKNOWN p3

/-- `StitcherImpl::init_geo_mappers`: the loop from camera `idx` on (`n` iterations left). -/
def init_geo_mappers_loop (env : Env) (cfg : Setup) :
    Nat → Nat → Pipeline → Outcome Pipeline
  | 0, _, p => Outcome.returned XCAM_RETURN_NO_ERROR p
  | n + 1, idx, p =>
    match init_geo_mapper env cfg p idx with
    | Outcome.assert_failed p1 => Outcome.assert_failed p1
    | Outcome.returned ret p1 =>
      if !xcam_ret_is_ok ret then Outcome.returned ret p1
      else init_geo_mappers_loop env cfg n (idx + 1) p1

/-- `StitcherImpl::init_geo_mappers`. -/
def init_geo_mappers (env : Env) (cfg : Setup) (p : Pipeline) : Outcome Pipeline :=
  init_geo_mappers_loop env cfg env.camera_num 0 p

/-- `StitcherImpl::init_feature_matchers`: it configures the matchers only, which are
external to the model (their results are fields of `Env`). -/
def init_feature_matchers (_env : Env) (p : Pipeline) : Pipeline := p

/-- One iteration of the loop of `StitcherImpl::init_blenders` with the creation of the
blend unit and the assertion on the two input buffers. -/
def init_blender_unit (env : Env) (cfg : Setup) (p : Pipeline) (idx : Nat) : Outcome Pipeline :=
  let p1 := { p with
    blender := Function.update p.blender idx (some ⟨cfg.output_width, cfg.output_height⟩) }
  let next_idx := (idx + 1) % env.camera_num
  if ((p1.res.mapper_param idx).out_buf.isSome &&
      (p1.res.mapper_param next_idx).out_buf.isSome) then
    Outcome.returned XCAM_RETURN_NO_ERROR { p1 with res := init_blender env p1.res idx }
  else
    Outcome.assert_failed
      { p1 with
        res := { p1.res with
          blender_param := Function.update p1.res.blender_param idx
            ⟨(p1.res.mapper_param idx).out_buf, (p1.res.mapper_param next_idx).out_buf, none⟩ } }

/-- `StitcherImpl::init_blenders` on the whole resource: the loop from pair `idx` on. -/
def init_blender_units_loop (env : Env) (cfg : Setup) :
    Nat → Nat → Pipeline → Outcome Pipeline
  | 0, _, p => Outcome.returned XCAM_RETURN_NO_ERROR p
  | n + 1, idx, p =>
    match init_blender_unit env cfg p idx with
    | Outcome.assert_failed p1 => Outcome.assert_failed p1
    | Outcome.returned _ p1 => init_blender_units_loop env cfg n (idx + 1) p1

/-- `StitcherImpl::init_blenders` on the whole resource. -/
def init_blender_units (env : Env) (cfg : Setup) (p : Pipeline) : Outcome Pipeline :=
  init_blender_units_loop env cfg env.camera_num 0 p

/-- First loop of `StitcherImpl::init_copiers`, from camera `idx` on: the copy
parameters of each camera read its slice buffer. -/
def init_copier_params_loop : Nat → Nat → Pipeline → Outcome Pipeline
  | 0, _, p => Outcome.returned XCAM_RETURN_NO_ERROR p
  | n + 1, idx, p =>
    let p1 := { p with
      copier_param := Function.update p.copier_param idx
        ⟨(p.res.mapper_param idx).out_buf, none⟩ }
    if (p.res.mapper_param idx).out_buf.isSome then init_copier_params_loop n (idx + 1) p1
    else Outcome.assert_failed p1

/-- Second loop of `StitcherImpl::init_copiers` over the copy areas still to be visited:
the assertion `areas[idx].in_idx < size`, then a new copy unit pushed at the back. -/
def init_copier_units_loop (size : Nat) : List Nat → Pipeline → Outcome Pipeline
  | [], p => Outcome.returned XCAM_RETURN_NO_ERROR p
  | in_idx :: rest, p =>
    if in_idx < size then
      init_copier_units_loop size rest
        { p with
          res := { p.res with copiers := p.res.copiers ++ [in_idx] }
          copier_released := Function.update p.copier_released p.res.copiers.length false }
    else Outcome.assert_failed p

/-- `StitcherImpl::init_copiers`. -/
def init_copiers (env : Env) (cfg : Setup) (p : Pipeline) : Outcome Pipeline :=
  match init_copier_params_loop env.camera_num 0 p with
  | Outcome.assert_failed p1 => Outcome.assert_failed p1
  | Outcome.returned _ p1 => init_copier_units_loop cfg.copy_areas.length cfg.copy_areas p1

/-- `StitcherImpl::init_resource`. -/
def init_resource (env : Env) (cfg : Setup) (p : Pipeline) : Outcome Pipeline :=
  match init_geo_mappers env cfg p with
  | Outcome.assert_failed p1 => Outcome.assert_failed p1
  | Outcome.returned ret p1 =>
    if !xcam_ret_is_ok ret then Outcome.returned ret p1
    else
      let p2 := if env.have_opencv then init_feature_matchers env p1 else p1
      match init_blender_units env cfg p2 with
      | Outcome.assert_failed p3 => Outcome.assert_failed p3
      | Outcome.returned ret p3 =>
        if !xcam_ret_is_ok ret then Outcome.returned ret p3
        else
          match init_copiers env cfg p3 with
          | Outcome.assert_failed p4 => Outcome.assert_failed p4
          | Outcome.returned ret p4 =>
            if !xcam_ret_is_ok ret then Outcome.returned ret p4
            else Outcome.returned XCAM_RETURN_NO_ERROR p4

/-- One iteration of the first loop of `StitcherImpl::stop`: the geomap unit of camera
`i` is terminated and released, its pool is stopped, its blend unit is terminated and
released, each only if present. -/
def stop_unit (p : Pipeline) (i : Nat) : Pipeline :=
  let p1 :=
    match p.res.mapper i with
    | some _ => { p with res := { p.res with mapper := Function.update p.res.mapper i none } }
    | none => p
  let p2 :=
    match p1.mapper_pool i with
    | some pool => { p1 with mapper_pool := Function.update p1.mapper_pool i (some pool.stop) }
    | none => p1
  match p2.blender i with
  | some _ => { p2 with blender := Function.update p2.blender i none }
  | none => p2

/-- One iteration of the second loop of `StitcherImpl::stop`: copy unit `i` is terminated
and released if present. -/
def stop_copier (p : Pipeline) (i : Nat) : Pipeline :=
  if p.copier_released i then p
  else { p with copier_released := Function.update p.copier_released i true }

/-- `StitcherImpl::stop`. -/
def stop (env : Env) (p : Pipeline) : XCamReturn × Pipeline :=
  let p1 := (List.range env.camera_num).foldl stop_unit p
  let p2 := (List.range p1.res.copiers.length).foldl stop_copier p1
  (XCAM_RETURN_NO_ERROR, p2)

/-- `VKStitcher::configure_resource`: the six estimation steps, `init_resource`, the
check of the output size and `set_out_video_info`. The second component is the output
video info of the handler. -/
def configure_resource (env : Env) (cfg : Setup) (p : Pipeline)
    (out_video_info : Option VideoBufferInfo) : Outcome (Pipeline × Option VideoBufferInfo) :=
  if !xcam_ret_is_ok cfg.init_camera_info then
    Outcome.returned cfg.init_camera_info (p, out_video_info)
  else if !xcam_ret_is_ok cfg.estimate_round_slices then
    Outcome.returned cfg.estimate_round_slices (p, out_video_info)
  else if !xcam_ret_is_ok cfg.estimate_coarse_crops then
    Outcome.returned cfg.estimate_coarse_crops (p, out_video_info)
  else if !xcam_ret_is_ok cfg.mark_centers then
    Outcome.returned cfg.mark_centers (p, out_video_info)
  else if !xcam_ret_is_ok cfg.estimate_overlap then
    Outcome.returned cfg.estimate_overlap (p, out_video_info)
  else if !xcam_ret_is_ok cfg.update_copy_areas then
    Outcome.returned cfg.update_copy_areas (p, out_video_info)
  else
    match init_resource env cfg p with
    | Outcome.assert_failed p1 => Outcome.assert_failed (p1, out_video_info)
    | Outcome.returned ret p1 =>
      if !xcam_ret_is_ok ret then Outcome.returned ret (p1, out_video_info)
      else
        let out_width := cfg.output_width
        let out_height := cfg.output_height
        if out_width ≠ 0 ∧ out_height ≠ 0 then
          let out_info : VideoBufferInfo :=
            { width := out_width
              height := out_height
              aligned_width := XCAM_ALIGN_UP out_width VK_STITCHER_ALIGNMENT_X
              aligned_height := XCAM_ALIGN_UP out_height VK_STITCHER_ALIGNMENT_Y }
          Outcome.returned ret (p1, some out_info)
        else Outcome.returned XCAM_RETURN_ERROR_PARAM (p1, out_video_info)

/-- A configuration-time setup for the three-camera sample: output 1920 x 640, one copy
area per camera, every collaborator succeeding. -/
def sample_setup : Setup where
  output_width := 1920
  output_height := 640
  copy_areas := [0, 1, 2]
  init_camera_info := XCAM_RETURN_NO_ERROR
  estimate_round_slices := XCAM_RETURN_NO_ERROR
  estimate_coarse_crops := XCAM_RETURN_NO_ERROR
  mark_centers := XCAM_RETURN_NO_ERROR
  estimate_overlap := XCAM_RETURN_NO_ERROR
  update_copy_areas := XCAM_RETURN_NO_ERROR
  pool_reserve := fun _ => true
  set_lookup_table := fun _ => true

/-- The sample setup with the output size never set (0 x 0). -/
def sample_setup_no_size : Setup :=
  { sample_setup with output_width := 0, output_height := 0 }

/-- The pipeline that `init_resource` builds for the three-camera sample. -/
def sample_pipeline : Pipeline :=
  (init_resource sample_env_fm_none sample_setup Pipeline.empty).res

/-- The resource after the first loop of `stop` has visited the cameras below `n`: their
geomap and blend units are released and their pools stopped. -/
def stopped_units (n : Nat) (p : Pipeline) : Pipeline :=
  { p with
    res := { p.res with mapper := fun i => if i < n then none else p.res.mapper i }
    mapper_pool := fun i =>
      if i < n then (p.mapper_pool i).map BufferPool.stop else p.mapper_pool i
    blender := fun i => if i < n then none else p.blender i }

/-- The resource after the second loop of `stop` has visited the copy units below `n`. -/
def stopped_copiers (n : Nat) (p : Pipeline) : Pipeline :=
  { p with copier_released := fun i => if i < n then true else p.copier_released i }

/-! ## Ring arithmetic -/

theorem pre_idx_lt (N idx : Nat) (hN : 2 ≤ N) : (idx + N - 1) % N < N :=
  Nat.mod_lt _ (by omega)

theorem pre_idx_ne (N idx : Nat) (hN : 2 ≤ N) (hidx : idx < N) : (idx + N - 1) % N ≠ idx := by
  rcases Nat.eq_zero_or_pos idx with h0 | hpos
  · subst h0
    have : (0 + N - 1) % N = N - 1 := by
      rw [Nat.zero_add]; exact Nat.mod_eq_of_lt (by omega)
    omega
  · have h1 : idx + N - 1 = (idx - 1) + N := by omega
    have : (idx + N - 1) % N = idx - 1 := by
      rw [h1, Nat.add_mod_right]; exact Nat.mod_eq_of_lt (by omega)
    omega

theorem pre_idx_succ (N idx : Nat) (hN : 2 ≤ N) (hidx : idx < N) :
    ((idx + N - 1) % N + 1) % N = idx := by
  rcases Nat.eq_zero_or_pos idx with h0 | hpos
  · subst h0
    have : (0 + N - 1) % N = N - 1 := by
      rw [Nat.zero_add]; exact Nat.mod_eq_of_lt (by omega)
    rw [this]
    have : N - 1 + 1 = N := by omega
    rw [this, Nat.mod_self]
  · have h1 : idx + N - 1 = (idx - 1) + N := by omega
    have : (idx + N - 1) % N = idx - 1 := by
      rw [h1, Nat.add_mod_right]; exact Nat.mod_eq_of_lt (by omega)
    rw [this]
    have : idx - 1 + 1 = idx := by omega
    rw [this]; exact Nat.mod_eq_of_lt hidx

theorem next_idx_ne (N idx : Nat) (hN : 2 ≤ N) (hidx : idx < N) : (idx + 1) % N ≠ idx := by
  by_cases h : idx + 1 < N
  · rw [Nat.mod_eq_of_lt h]; omega
  · have : idx + 1 = N := by omega
    rw [this, Nat.mod_self]; omega

theorem next_idx_eq_iff (N idx p : Nat) (hN : 2 ≤ N) (hidx : idx < N) (hp : p < N) :
    (p + 1) % N = idx ↔ p = (idx + N - 1) % N := by
  constructor
  · intro h
    subst h
    by_cases h1 : p + 1 < N
    · rw [Nat.mod_eq_of_lt h1]
      have : p + 1 + N - 1 = p + N := by omega
      rw [this, Nat.add_mod_right, Nat.mod_eq_of_lt hp]
    · have h2 : p + 1 = N := by omega
      rw [h2, Nat.mod_self, Nat.zero_add]
      rw [Nat.mod_eq_of_lt (by omega)]; omega
  · intro h
    rw [h]; exact pre_idx_succ N idx hN hidx

/-! ## Pair synchroniser -/

theorem update_blender_sync_sync (env : Env) (res : StitcherResource) (idx : Nat) :
    (update_blender_sync env res idx).blender_sync =
      Function.update
        (Function.update res.blender_sync ((idx + env.camera_num - 1) % env.camera_num)
          (res.blender_sync ((idx + env.camera_num - 1) % env.camera_num)).increment)
        idx
        ((Function.update res.blender_sync ((idx + env.camera_num - 1) % env.camera_num)
          (res.blender_sync ((idx + env.camera_num - 1) % env.camera_num)).increment)
          idx).increment := rfl

theorem update_blender_sync_log (env : Env) (res : StitcherResource) (idx : Nat) :
    (update_blender_sync env res idx).blend_log = res.blend_log := rfl

theorem start_feature_match_of_pass (env : Env) (res : StitcherResource) (idx : Nat)
    (hcv : env.have_opencv = true) (hpass : fm_checks_pass env idx) :
    start_feature_match env res idx =
      Outcome.returned XCAM_RETURN_NO_ERROR
        { res with
          mapper_factors :=
            Function.update
              (Function.update res.mapper_factors idx
                { res.mapper_factors idx with
                  right := ⟨fm_factor_x (fm_right_range env idx)
                    (env.current_left_offset_x idx), 1⟩ })
              ((idx + 1) % env.camera_num)
              { (Function.update res.mapper_factors idx
                  { res.mapper_factors idx with
                    right := ⟨fm_factor_x (fm_right_range env idx)
                      (env.current_left_offset_x idx), 1⟩ }) ((idx + 1) % env.camera_num) with
                left := ⟨fm_factor_x (fm_left_range env idx)
                  (env.current_left_offset_x idx), 1⟩ } } := by
  obtain ⟨h1, h2, h3, h4⟩ := hpass
  unfold start_feature_match start_feature_match_with
  simp only [hcv, if_true]
  have h2a : fm_factor_x_with (fun a b => a / b) (fm_right_range env idx)
        (env.current_left_offset_x idx) > 0 ∧
      fm_factor_x_with (fun a b => a / b) (fm_right_range env idx)
        (env.current_left_offset_x idx) < 2 := h2
  have h4a : fm_factor_x_with (fun a b => a / b) (fm_left_range env idx)
        (env.current_left_offset_x idx) > 0 ∧
      fm_factor_x_with (fun a b => a / b) (fm_left_range env idx)
        (env.current_left_offset_x idx) < 2 := h4
  rw [if_pos h1, if_pos h2a, if_pos h3, if_pos h4a]
  rfl

theorem start_blender_unsynced (env : Env) (res : StitcherResource)
    (out_buf : Option VideoBuffer) (p : Nat)
    (hs : (res.blender_sync p).is_synced = false) :
    start_blender env res out_buf p = Outcome.returned XCAM_RETURN_NO_ERROR res := by
  unfold start_blender
  simp [hs]

theorem start_blender_synced (env : Env) (res : StitcherResource)
    (out_buf : Option VideoBuffer) (p : Nat)
    (hs : (res.blender_sync p).is_synced = true)
    (hexec : xcam_ret_is_ok (env.blender_execute p) = true)
    (hfm : env.have_opencv = true → env.fm_enabled = true → fm_checks_pass env p) :
    ∃ res1, start_blender env res out_buf p = Outcome.returned XCAM_RETURN_NO_ERROR res1 ∧
      res1.blender_sync = Function.update res.blender_sync p (res.blender_sync p).reset ∧
      res1.blend_log = res.blend_log ++ [p] := by
  unfold start_blender
  simp only [hs, hexec, Bool.not_true, Bool.false_eq_true, if_false]
  by_cases hc : (env.have_opencv && env.fm_enabled) = true
  · have hcv : env.have_opencv = true := by
      cases h : env.have_opencv <;> simp [h] at hc ⊢
    have hen : env.fm_enabled = true := by
      cases h : env.fm_enabled <;> simp [h] at hc ⊢
    simp only [hc, if_true]
    rw [start_feature_match_of_pass env _ p hcv (hfm hcv hen)]
    simp [xcam_ret_is_ok]
  · simp only [hc, if_false, Bool.false_eq_true]
    exact ⟨_, rfl, rfl, rfl⟩

theorem start_copier_loop_keeps (env : Env) (out_buf : Option VideoBuffer) (idx : Nat)
    (l : List Nat) (i : Nat) (res : StitcherResource) :
    (start_copier_loop env out_buf idx l i res).2.blender_sync = res.blender_sync ∧
    (start_copier_loop env out_buf idx l i res).2.blend_log = res.blend_log ∧
    (start_copier_loop env out_buf idx l i res).2.mapper = res.mapper ∧
    (start_copier_loop env out_buf idx l i res).2.mapper_factors = res.mapper_factors := by
  induction l generalizing i res with
  | nil => exact ⟨rfl, rfl, rfl, rfl⟩
  | cons a rest ih =>
    unfold start_copier_loop
    by_cases h : a ≠ idx
    · rw [if_pos h]; exact ih (i + 1) res
    · rw [if_neg h]
      by_cases hx : (!xcam_ret_is_ok (env.copier_execute i)) = true
      · simp only [hx, if_true]; simp
      · simp only [hx, if_false, Bool.false_eq_true]
        obtain ⟨h1, h2, h3, h4⟩ := ih (i + 1) { res with copy_log := res.copy_log ++ [i] }
        exact ⟨h1, h2, h3, h4⟩

theorem start_blender_total (env : Env) (res : StitcherResource)
    (out_buf : Option VideoBuffer) (p : Nat)
    (hexec : xcam_ret_is_ok (env.blender_execute p) = true)
    (hfm : env.have_opencv = true → env.fm_enabled = true → fm_checks_pass env p) :
    ∃ res1, start_blender env res out_buf p = Outcome.returned XCAM_RETURN_NO_ERROR res1 ∧
      (∀ q, res1.blender_sync q =
        if q = p ∧ (res.blender_sync p).is_synced = true then (res.blender_sync p).reset
        else res.blender_sync q) ∧
      res1.blend_log =
        if (res.blender_sync p).is_synced = true then res.blend_log ++ [p] else res.blend_log := by
  cases hs : (res.blender_sync p).is_synced with
  | false =>
    refine ⟨res, start_blender_unsynced env res out_buf p hs, ?_, ?_⟩
    · intro q; simp
    · simp
  | true =>
    obtain ⟨res1, h1, h2, h3⟩ := start_blender_synced env res out_buf p hs hexec hfm
    refine ⟨res1, h1, ?_, ?_⟩
    · intro q
      rw [h2]
      by_cases hq : q = p
      · subst hq; simp
      · simp [Function.update_noteq hq, hq]
    · simp [h3]

theorem geomap_done_inv (env : Env) (res : StitcherResource) (out_buf : Option VideoBuffer)
    (idx : Nat) (c : Nat → Nat)
    (hN : 2 ≤ env.camera_num) (hidx : idx < env.camera_num)
    (hok : ∀ p, p < env.camera_num →
      xcam_ret_is_ok (env.blender_execute p) = true ∧
      (env.have_opencv = true → env.fm_enabled = true → fm_checks_pass env p))
    (hinv : SyncInv env c res) :
    ∃ res1, geomap_done env res out_buf idx = some res1 ∧
      SyncInv env (fun q => c q + if q = idx then 1 else 0) res1 := by
  have hpre_lt := pre_idx_lt env.camera_num idx hN
  have hpre_ne := pre_idx_ne env.camera_num idx hN hidx
  have hnext_ne := next_idx_ne env.camera_num idx hN hidx
  have hpre_succ := pre_idx_succ env.camera_num idx hN hidx
  obtain ⟨hsync, hlog⟩ := hinv
  -- first blender: the pair before idx
  obtain ⟨r2, e2, s2, l2⟩ := start_blender_total env (update_blender_sync env res idx) out_buf
    ((idx + env.camera_num - 1) % env.camera_num) (hok _ hpre_lt).1 (hok _ hpre_lt).2
  -- second blender: pair idx
  obtain ⟨r3, e3, s3, l3⟩ := start_blender_total env r2 out_buf idx (hok _ hidx).1 (hok _ hidx).2
  obtain ⟨k1, k2, _, _⟩ := start_copier_loop_keeps env out_buf idx r3.copiers 0 r3
  refine ⟨(start_copier env r3 out_buf idx).2, ?_, ?_⟩
  · unfold geomap_done start_blenders
    simp only [e2, e3, xcam_ret_is_ok, decide_True, Bool.not_true, Bool.false_eq_true, if_false]
  · have hs1 : ∀ q, (update_blender_sync env res idx).blender_sync q =
        if q = idx then (res.blender_sync idx).increment
        else if q = (idx + env.camera_num - 1) % env.camera_num then
          (res.blender_sync ((idx + env.camera_num - 1) % env.camera_num)).increment
        else res.blender_sync q := by
      intro q
      rw [update_blender_sync_sync]
      by_cases hq : q = idx
      · subst hq
        simp [Function.update_noteq (Ne.symm hpre_ne)]
      · rw [Function.update_noteq hq, if_neg hq]
        by_cases hq2 : q = (idx + env.camera_num - 1) % env.camera_num
        · rw [if_pos hq2, hq2, Function.update_same]
        · rw [Function.update_noteq hq2, if_neg hq2]
    have hl1 := update_blender_sync_log env res idx
    obtain ⟨tp, cp, lp⟩ := hsync _ hpre_lt
    obtain ⟨ti, ci, li⟩ := hsync _ hidx
    rw [hpre_succ] at cp lp
    -- values seen by the two blenders
    have v1 : (update_blender_sync env res idx).blender_sync
        ((idx + env.camera_num - 1) % env.camera_num) =
        (res.blender_sync ((idx + env.camera_num - 1) % env.camera_num)).increment := by
      rw [hs1, if_neg hpre_ne, if_pos rfl]
    have v2 : r2.blender_sync idx = (res.blender_sync idx).increment := by
      rw [s2, if_neg (fun h => hpre_ne h.1.symm), hs1, if_pos rfl]
    rw [v1] at s2 l2
    rw [v2] at s3 l3
    unfold start_copier
    refine ⟨?_, ?_⟩
    · intro q hq
      rw [k1, k2, s3, l3, l2, hl1]
      simp only [s2, hs1]
      obtain ⟨tq, cq, lq⟩ := hsync q hq
      have hpnotin : ∀ x, x ∉ ([] : List Nat) := fun x => List.not_mem_nil x
      by_cases hqi : q = idx
      · rw [hqi]
        simp only [Sync.is_synced, Sync.increment, Sync.reset, decide_eq_true_eq, ti, tp,
          if_pos, if_true, true_and, hnext_ne, if_false]
        have hpne : ¬ ((idx + env.camera_num - 1) % env.camera_num = idx) := hpre_ne
        refine ⟨?_, ?_, ?_⟩
        · split_ifs <;> simp
        · split_ifs <;> simp <;> omega
        · split_ifs <;>
            simp [List.count_append, List.count_cons, List.count_nil, hpne] <;> omega
      · by_cases hqp : q = (idx + env.camera_num - 1) % env.camera_num
        · rw [hqp]
          simp only [Sync.is_synced, Sync.increment, Sync.reset, decide_eq_true_eq, ti, tp,
            hpre_ne, if_false, false_and, if_true, true_and, hpre_succ]
          refine ⟨?_, ?_, ?_⟩
          · split_ifs <;> simp [tp]
          · split_ifs <;> simp <;> omega
          · split_ifs <;>
              simp [List.count_append, List.count_cons, List.count_nil, Ne.symm hpre_ne] <;>
              omega
        · have hnx : ¬ ((q + 1) % env.camera_num = idx) := by
            intro h
            exact hqp ((next_idx_eq_iff env.camera_num idx q hN hidx hq).1 h)
          simp only [Sync.is_synced, Sync.increment, Sync.reset, decide_eq_true_eq, ti, tp,
            hqi, hqp, hnx, if_false, false_and, add_zero]
          refine ⟨tq, cq, ?_⟩
          split_ifs <;>
            simp [List.count_append, List.count_cons, List.count_nil, Ne.symm hqi,
              Ne.symm hqp, lq]
    · have hA : ∀ x, x ∈ r2.blend_log → x < env.camera_num := by
        intro x hx
        rw [l2, hl1] at hx
        split_ifs at hx
        · rcases List.mem_append.1 hx with h | h
          · exact hlog x h
          · rw [List.mem_singleton.1 h]; exact hpre_lt
        · exact hlog x hx
      intro q hq
      rw [k2, l3] at hq
      split_ifs at hq
      · rcases List.mem_append.1 hq with h | h
        · exact hA q h
        · rw [List.mem_singleton.1 h]; exact hidx
      · exact hA q hq

theorem geomap_done_all_inv (env : Env) (out_buf : Option VideoBuffer)
    (hN : 2 ≤ env.camera_num)
    (hok : ∀ p, p < env.camera_num →
      xcam_ret_is_ok (env.blender_execute p) = true ∧
      (env.have_opencv = true → env.fm_enabled = true → fm_checks_pass env p)) :
    ∀ (order : List Nat) (res : StitcherResource) (c : Nat → Nat),
      (∀ x, x ∈ order → x < env.camera_num) → SyncInv env c res →
      ∃ res1, geomap_done_all env out_buf res order = some res1 ∧
        SyncInv env (fun q => c q + order.count q) res1 := by
  intro order
  induction order with
  | nil =>
    intro res c _ hinv
    exact ⟨res, rfl, by simpa using hinv⟩
  | cons idx rest ih =>
    intro res c hall hinv
    obtain ⟨r1, e1, i1⟩ := geomap_done_inv env res out_buf idx c hN
      (hall idx (List.mem_cons_self idx rest)) hok hinv
    obtain ⟨r2, e2, i2⟩ := ih r1 _ (fun x hx => hall x (List.mem_cons_of_mem idx hx)) i1
    refine ⟨r2, ?_, ?_⟩
    · simp only [geomap_done_all, e1]; exact e2
    · have hfun : (fun q => c q + (idx :: rest).count q) =
          (fun q => (c q + if q = idx then 1 else 0) + rest.count q) := by
        funext q
        rw [List.count_cons]
        by_cases hq : q = idx
        · subst hq; simp; omega
        · have : ¬ (idx = q) := fun h => hq h.symm
          simp [hq, this]
      rw [hfun]; exact i2

theorem init_blenders_fold (env : Env) (n : Nat) (res : StitcherResource) :
    ((List.range n).foldl (init_blender env) res).mapper_param = res.mapper_param ∧
    (∀ p, ((List.range n).foldl (init_blender env) res).blender_param p =
      if p < n then
        { in_buf := (res.mapper_param p).out_buf
          in1_buf := (res.mapper_param ((p + 1) % env.camera_num)).out_buf
          out_buf := none }
      else res.blender_param p) ∧
    (∀ p, ((List.range n).foldl (init_blender env) res).blender_sync p =
      if p < n then Sync.create 2 else res.blender_sync p) := by
  induction n with
  | zero => simp
  | succ n ih =>
    obtain ⟨h1, h2, h3⟩ := ih
    rw [List.range_succ, List.foldl_append]
    simp only [List.foldl_cons, List.foldl_nil]
    refine ⟨?_, ?_, ?_⟩
    · simp only [init_blender]; exact h1
    · intro p
      simp only [init_blender, h1]
      by_cases hp : p = n
      · subst hp; simp
      · rw [Function.update_noteq hp, h2]
        by_cases hlt : p < n
        · simp [hlt, Nat.lt_succ_of_lt hlt]
        · have : ¬ p < n + 1 := by omega
          simp [hlt, this]
    · intro p
      simp only [init_blender]
      by_cases hp : p = n
      · subst hp; simp
      · rw [Function.update_noteq hp, h3]
        by_cases hlt : p < n
        · simp [hlt, Nat.lt_succ_of_lt hlt]
        · have : ¬ p < n + 1 := by omega
          simp [hlt, this]

/-! ## Claims on the pair synchroniser -/

/-- C1, amended. For a ring of `N` cameras with `2 ≤ N ≤ 6`, any order (a permutation of
`0..N-1`) in which the geomap completions of one frame are handled by `geomap_done`,
all pair counters starting at 0 (target 2), every blend dispatch succeeding and, where
feature matching runs after a blend (matcher built in, feature-match mode not none), the
four assertions of `start_feature_match` holding for every pair: every completion is
handled to the end, the blend dispatch log of the frame is a permutation of `0..N-1`
(each blend unit dispatched exactly once), every pair counter is 0 again after the last
completion, and after any number `k` of completions every blend `p` dispatched so far
has both camera `p` and camera `(p + 1) % N` among the completed ones. -/
theorem geomap_done_blends_once (env : Env) (res : StitcherResource)
    (out_buf : Option VideoBuffer) (order : List Nat)
    (hN : 2 ≤ env.camera_num) (hmax : env.camera_num ≤ XCAM_STITCH_MAX_CAMERAS)
    (hperm : order.Perm (List.range env.camera_num))
    (h0 : ∀ p, p < env.camera_num → res.blender_sync p = Sync.create 2)
    (hlog : res.blend_log = [])
    (hok : ∀ p, p < env.camera_num →
      xcam_ret_is_ok (env.blender_execute p) = true ∧
      (env.have_opencv = true → env.fm_enabled = true → fm_checks_pass env p)) :
    (∃ res1, geomap_done_all env out_buf res order = some res1 ∧
      res1.blend_log.Perm (List.range env.camera_num) ∧
      ∀ p, p < env.camera_num → (res1.blender_sync p).count = 0) ∧
    (∀ k, ∃ resk, geomap_done_all env out_buf res (order.take k) = some resk ∧
      ∀ p, p ∈ resk.blend_log →
        p ∈ order.take k ∧ (p + 1) % env.camera_num ∈ order.take k) := by
  have _ := hmax
  have hinv0 : SyncInv env (fun _ => 0) res := by
    refine ⟨?_, ?_⟩
    · intro p hp
      rw [h0 p hp, hlog]
      simp [Sync.create]
    · intro p hp; rw [hlog] at hp; exact absurd hp (List.not_mem_nil p)
  have hmem : ∀ x, x ∈ order → x < env.camera_num := by
    intro x hx
    exact List.mem_range.1 (hperm.mem_iff.1 hx)
  have hnodup : order.Nodup := hperm.nodup_iff.2 (List.nodup_range _)
  have hNpos : 0 < env.camera_num := by omega
  refine ⟨?_, ?_⟩
  · obtain ⟨r, e, ⟨hs, hl⟩⟩ := geomap_done_all_inv env out_buf hN hok order res _ hmem hinv0
    have hcnt : ∀ q, q < env.camera_num → order.count q = 1 := by
      intro q hq
      exact List.count_eq_one_of_mem hnodup (hperm.mem_iff.2 (List.mem_range.2 hq))
    refine ⟨r, e, ?_, ?_⟩
    · rw [List.perm_iff_count]
      intro a
      by_cases ha : a < env.camera_num
      · obtain ⟨_, _, h3⟩ := hs a ha
        simp only [zero_add] at h3
        rw [h3, hcnt a ha, hcnt _ (Nat.mod_lt _ hNpos)]
        rw [List.count_eq_one_of_mem (List.nodup_range _) (List.mem_range.2 ha)]
      · rw [List.count_eq_zero_of_not_mem (fun h => ha (hl a h))]
        rw [List.count_eq_zero_of_not_mem (fun h => ha (List.mem_range.1 h))]
    · intro p hp
      obtain ⟨_, h2, _⟩ := hs p hp
      simp only [zero_add] at h2
      rw [h2, hcnt p hp, hcnt _ (Nat.mod_lt _ hNpos)]
  · intro k
    have hsub : (order.take k).Sublist order := List.take_sublist k order
    have hnd : (order.take k).Nodup := hnodup.sublist hsub
    obtain ⟨r, e, ⟨hs, hl⟩⟩ := geomap_done_all_inv env out_buf hN hok (order.take k) res _
      (fun x hx => hmem x (hsub.subset hx)) hinv0
    refine ⟨r, e, ?_⟩
    intro p hp
    obtain ⟨_, _, h3⟩ := hs p (hl p hp)
    have hpos : 0 < r.blend_log.count p := List.count_pos_iff.2 hp
    have b1 := List.nodup_iff_count_le_one.1 hnd p
    have b2 := List.nodup_iff_count_le_one.1 hnd ((p + 1) % env.camera_num)
    simp only [zero_add] at h3
    have c1 : 0 < (order.take k).count p := by omega
    have c2 : 0 < (order.take k).count ((p + 1) % env.camera_num) := by omega
    exact ⟨List.count_pos_iff.1 c1, List.count_pos_iff.1 c2⟩

/-- Witness for the amended C1: three cameras completing in the order 2, 0, 1 with
feature matching enabled. -/
theorem geomap_done_blends_once_witness :
    (∃ res1, geomap_done_all sample_env none sample_res [2, 0, 1] = some res1 ∧
      res1.blend_log.Perm (List.range sample_env.camera_num) ∧
      ∀ p, p < sample_env.camera_num → (res1.blender_sync p).count = 0) ∧
    (∀ k, ∃ resk, geomap_done_all sample_env none sample_res ([2, 0, 1].take k) = some resk ∧
      ∀ p, p ∈ resk.blend_log →
        p ∈ [2, 0, 1].take k ∧ (p + 1) % sample_env.camera_num ∈ [2, 0, 1].take k) :=
  geomap_done_blends_once sample_env sample_res none [2, 0, 1]
    (by decide) (by decide) (by decide) (fun _ _ => rfl) rfl
    (fun p _ => ⟨rfl, fun _ _ => by
      norm_num [fm_checks_pass, fm_right_range, fm_left_range, fm_factor_x, fm_factor_x_with,
        sample_env]⟩)

/-- C2. For every ring size `N ≥ 2` and camera `idx < N`, `update_blender_sync idx`
adds one to the counters of the two distinct pairs `(idx + N - 1) % N` and `idx`
(thresholds untouched) and leaves every other counter as it was; and after
`init_blenders` (pair `p` reads the slice of camera `p` as first input and the slice of
camera `(p + 1) % N` as second input) these two pairs are exactly the pairs whose blend
unit reads the slice of camera `idx`, the slice buffers of the cameras being distinct. -/
theorem update_blender_sync_two_pairs (env : Env) (res res0 : StitcherResource) (idx : Nat)
    (hN : 2 ≤ env.camera_num) (hidx : idx < env.camera_num)
    (hbuf : ∀ i j, i < env.camera_num → j < env.camera_num →
      (res0.mapper_param i).out_buf = (res0.mapper_param j).out_buf → i = j) :
    (idx + env.camera_num - 1) % env.camera_num ≠ idx ∧
    (idx + env.camera_num - 1) % env.camera_num < env.camera_num ∧
    ((update_blender_sync env res idx).blender_sync
        ((idx + env.camera_num - 1) % env.camera_num)).count =
      (res.blender_sync ((idx + env.camera_num - 1) % env.camera_num)).count + 1 ∧
    ((update_blender_sync env res idx).blender_sync idx).count =
      (res.blender_sync idx).count + 1 ∧
    (∀ j, ((update_blender_sync env res idx).blender_sync j).threshold =
      (res.blender_sync j).threshold) ∧
    (∀ j, j ≠ (idx + env.camera_num - 1) % env.camera_num → j ≠ idx →
      (update_blender_sync env res idx).blender_sync j = res.blender_sync j) ∧
    (∀ p, p < env.camera_num →
      ((init_blenders env res0).blender_param p).in_buf = (res0.mapper_param p).out_buf ∧
      ((init_blenders env res0).blender_param p).in1_buf =
        (res0.mapper_param ((p + 1) % env.camera_num)).out_buf) ∧
    (∀ p, p < env.camera_num →
      (blender_reads (init_blenders env res0) p idx ↔
        (p = (idx + env.camera_num - 1) % env.camera_num ∨ p = idx))) := by
  have hpre_lt := pre_idx_lt env.camera_num idx hN
  have hpre_ne := pre_idx_ne env.camera_num idx hN hidx
  have hNpos : 0 < env.camera_num := by omega
  obtain ⟨f1, f2, _⟩ := init_blenders_fold env env.camera_num res0
  refine ⟨hpre_ne, hpre_lt, ?_, ?_, ?_, ?_, ?_, ?_⟩
  · rw [update_blender_sync_sync, Function.update_noteq hpre_ne, Function.update_same]
    rfl
  · rw [update_blender_sync_sync, Function.update_same,
      Function.update_noteq (Ne.symm hpre_ne)]
    rfl
  · intro j
    rw [update_blender_sync_sync]
    by_cases h1 : j = idx
    · rw [h1, Function.update_same, Function.update_noteq (Ne.symm hpre_ne)]; rfl
    · rw [Function.update_noteq h1]
      by_cases h2 : j = (idx + env.camera_num - 1) % env.camera_num
      · rw [h2, Function.update_same]; rfl
      · rw [Function.update_noteq h2]
  · intro j h2 h1
    rw [update_blender_sync_sync, Function.update_noteq h1, Function.update_noteq h2]
  · intro p hp
    unfold init_blenders
    rw [f2 p, if_pos hp]
    exact ⟨rfl, rfl⟩
  · intro p hp
    unfold blender_reads init_blenders
    rw [f1, f2 p, if_pos hp]
    simp only
    constructor
    · rintro (h | h)
      · exact Or.inr (hbuf p idx hp hidx h)
      · have := hbuf _ idx (Nat.mod_lt _ hNpos) hidx h
        exact Or.inl ((next_idx_eq_iff env.camera_num idx p hN hidx hp).1 this)
    · rintro (h | h)
      · right
        rw [(next_idx_eq_iff env.camera_num idx p hN hidx hp).2 h]
      · left; rw [h]

/-- Witness for C2: camera 0 of the three-camera sample, whose predecessor pair is 2. -/
theorem update_blender_sync_two_pairs_witness :
    (0 + sample_env.camera_num - 1) % sample_env.camera_num ≠ 0 ∧
    (0 + sample_env.camera_num - 1) % sample_env.camera_num < sample_env.camera_num ∧
    ((update_blender_sync sample_env sample_res 0).blender_sync
        ((0 + sample_env.camera_num - 1) % sample_env.camera_num)).count =
      (sample_res.blender_sync ((0 + sample_env.camera_num - 1) % sample_env.camera_num)).count
        + 1 ∧
    ((update_blender_sync sample_env sample_res 0).blender_sync 0).count =
      (sample_res.blender_sync 0).count + 1 ∧
    (∀ j, ((update_blender_sync sample_env sample_res 0).blender_sync j).threshold =
      (sample_res.blender_sync j).threshold) ∧
    (∀ j, j ≠ (0 + sample_env.camera_num - 1) % sample_env.camera_num → j ≠ 0 →
      (update_blender_sync sample_env sample_res 0).blender_sync j = sample_res.blender_sync j) ∧
    (∀ p, p < sample_env.camera_num →
      ((init_blenders sample_env sample_res).blender_param p).in_buf =
        (sample_res.mapper_param p).out_buf ∧
      ((init_blenders sample_env sample_res).blender_param p).in1_buf =
        (sample_res.mapper_param ((p + 1) % sample_env.camera_num)).out_buf) ∧
    (∀ p, p < sample_env.camera_num →
      (blender_reads (init_blenders sample_env sample_res) p 0 ↔
        (p = (0 + sample_env.camera_num - 1) % sample_env.camera_num ∨ p = 0))) :=
  update_blender_sync_two_pairs sample_env sample_res sample_res 0 (by decide) (by decide)
    (fun i j _ _ h => by simpa [sample_res] using h)

/-! ## Claims on the adaptive geometry feedback -/

/-- C3. In single-scale mode, for a camera whose geomap handler exists and whose
persistent factor `(fx, fy)` is not recognised as the zero sentinel, and for any pending
slots `left = (lx, ly)`, `right = (rx, ry)`, `update_geomap_factors idx` returns true and
writes back the factor `((fx*lx + fx*rx)/2, (fy*ly + fy*ry)/2)`. -/
theorem update_geomap_factors_average (env : Env) (res : StitcherResource) (idx : Nat)
    (fx fy lx ly rx ry : ℚ)
    (hmode : env.scale_mode = GeoMapScaleMode.ScaleSingleConst)
    (hmapper : res.mapper idx = some ⟨fx, fy⟩)
    (hx : env.double_equal_around fx 0 = false)
    (hy : env.double_equal_around fy 0 = false)
    (hslots : res.mapper_factors idx = ⟨⟨lx, ly⟩, ⟨rx, ry⟩⟩) :
    (update_geomap_factors env res idx).1 = true ∧
    (update_geomap_factors env res idx).2.mapper idx =
      some ⟨(fx * lx + fx * rx) / 2, (fy * ly + fy * ry) / 2⟩ ∧
    ∀ j, j ≠ idx → (update_geomap_factors env res idx).2.mapper j = res.mapper j := by
  unfold update_geomap_factors
  simp only [hmapper, hmode, if_true, hx, hy, Bool.or_self, Bool.false_eq_true, if_false,
    calc_geomap_factors, hslots, VKGeoMapHandler.set_factors, Function.update_same, true_and]
  intro j hj
  exact Function.update_noteq hj _ _

/-- Witness for C3: camera 1 of the sample with factor `(2, 3)` and pending slots
`(1/2, 1)` and `(3/2, 1)`. -/
theorem update_geomap_factors_average_witness :
    (update_geomap_factors sample_env
      { sample_res with mapper_factors := fun _ => ⟨⟨1 / 2, 1⟩, ⟨3 / 2, 1⟩⟩ } 1).1 = true ∧
    (update_geomap_factors sample_env
      { sample_res with mapper_factors := fun _ => ⟨⟨1 / 2, 1⟩, ⟨3 / 2, 1⟩⟩ } 1).2.mapper 1 =
      some ⟨(2 * (1 / 2) + 2 * (3 / 2)) / 2, (3 * 1 + 3 * 1) / 2⟩ ∧
    ∀ j, j ≠ 1 → (update_geomap_factors sample_env
      { sample_res with mapper_factors := fun _ => ⟨⟨1 / 2, 1⟩, ⟨3 / 2, 1⟩⟩ } 1).2.mapper j =
      ({ sample_res with
        mapper_factors := fun _ => ⟨⟨1 / 2, 1⟩, ⟨3 / 2, 1⟩⟩ } : StitcherResource).mapper j :=
  update_geomap_factors_average sample_env
    { sample_res with mapper_factors := fun _ => ⟨⟨1 / 2, 1⟩, ⟨3 / 2, 1⟩⟩ } 1 2 3 (1 / 2) 1
    (3 / 2) 1 rfl rfl (by simp [sample_env]) (by simp [sample_env]) rfl

theorem start_feature_match_no_opencv (env : Env) (res : StitcherResource) (idx : Nat)
    (hcv : env.have_opencv = false) :
    start_feature_match env res idx = Outcome.returned XCAM_RETURN_ERROR_PARAM res := by
  unfold start_feature_match start_feature_match_with
  simp [hcv]

theorem start_feature_match_of_fail (env : Env) (res : StitcherResource) (idx : Nat)
    (hcv : env.have_opencv = true) (hfail : ¬ fm_checks_pass env idx) :
    start_feature_match env res idx = Outcome.assert_failed res := by
  unfold start_feature_match start_feature_match_with
  simp only [hcv, if_true]
  by_cases h1 : fm_right_range env idx > 1
  · rw [if_pos h1]
    by_cases h2 : fm_factor_x_with (fun a b => a / b) (fm_right_range env idx)
          (env.current_left_offset_x idx) > 0 ∧
        fm_factor_x_with (fun a b => a / b) (fm_right_range env idx)
          (env.current_left_offset_x idx) < 2
    · rw [if_pos h2]
      by_cases h3 : fm_left_range env idx > 1
      · rw [if_pos h3]
        by_cases h4 : fm_factor_x_with (fun a b => a / b) (fm_left_range env idx)
              (env.current_left_offset_x idx) > 0 ∧
            fm_factor_x_with (fun a b => a / b) (fm_left_range env idx)
              (env.current_left_offset_x idx) < 2
        · exact absurd ⟨h1, h2, h3, h4⟩ hfail
        · rw [if_neg h4]
      · rw [if_neg h3]
    · rw [if_neg h2]
  · rw [if_neg h1]

theorem start_feature_match_with_agree (div : ℚ → ℚ → ℚ) (env : Env)
    (res : StitcherResource) (idx : Nat)
    (hdiv : ∀ a b, b > 1 → div a b = a / b) :
    start_feature_match_with div env res idx = start_feature_match env res idx := by
  unfold start_feature_match start_feature_match_with
  by_cases hcv : env.have_opencv = true
  · simp only [hcv, if_true]
    by_cases h1 : fm_right_range env idx > 1
    · have e1 : fm_factor_x_with div (fm_right_range env idx) (env.current_left_offset_x idx) =
          fm_factor_x_with (fun a b => a / b) (fm_right_range env idx)
            (env.current_left_offset_x idx) := hdiv _ _ h1
      rw [if_pos h1, if_pos h1, e1]
      by_cases h3 : fm_left_range env idx > 1
      · have e2 : fm_factor_x_with div (fm_left_range env idx)
            (env.current_left_offset_x idx) =
            fm_factor_x_with (fun a b => a / b) (fm_left_range env idx)
              (env.current_left_offset_x idx) := hdiv _ _ h3
        simp only [if_pos h3, e2]
      · simp only [if_neg h3]
    · rw [if_neg h1, if_neg h1]
  · simp only [hcv, if_false, Bool.false_eq_true]

/-- C4. For a pair `idx` with measured offset `d`, with
`r1 = (left_crop.pos_x + left_crop.width / 2) - slice_center_x idx` and
`r2 = slice_center_x ((idx + 1) % N) - (right_crop.pos_x + right_crop.width / 2)`, both
above 1, `start_feature_match` computes in exact arithmetic the factors
`((r1 + d/2) / r1, 1)` and `((r2 + d/2) / r2, 1)`: either it returns no-error having
stored exactly these in the right slot of camera `idx` and the left slot of camera
`(idx + 1) % N`, or one of these two values fails the `(0, 2)` assertion and the call
stops there with the resource untouched. -/
theorem start_feature_match_factors (env : Env) (res : StitcherResource) (idx : Nat)
    (r1 r2 d : ℚ)
    (hcv : env.have_opencv = true)
    (hr1 : r1 = ((env.crop_rect idx).1.pos_x : ℚ) + ((env.crop_rect idx).1.width : ℚ) / 2 -
      ((env.center_marks idx).slice_center_x : ℚ))
    (hr2 : r2 = ((env.center_marks ((idx + 1) % env.camera_num)).slice_center_x : ℚ) -
      (((env.crop_rect idx).2.pos_x : ℚ) + ((env.crop_rect idx).2.width : ℚ) / 2))
    (hd : d = env.current_left_offset_x idx)
    (h1 : r1 > 1) (h2 : r2 > 1) :
    (∃ res1, start_feature_match env res idx = Outcome.returned XCAM_RETURN_NO_ERROR res1 ∧
      (res1.mapper_factors idx).right = ⟨(r1 + d / 2) / r1, 1⟩ ∧
      (res1.mapper_factors ((idx + 1) % env.camera_num)).left = ⟨(r2 + d / 2) / r2, 1⟩) ∨
    (start_feature_match env res idx = Outcome.assert_failed res ∧
      (¬ (0 < (r1 + d / 2) / r1 ∧ (r1 + d / 2) / r1 < 2) ∨
        ¬ (0 < (r2 + d / 2) / r2 ∧ (r2 + d / 2) / r2 < 2))) := by
  have e1 : fm_right_range env idx = r1 := by rw [hr1]; rfl
  have e2 : fm_left_range env idx = r2 := by rw [hr2]; rfl
  have f1 : fm_factor_x (fm_right_range env idx) (env.current_left_offset_x idx) =
      (r1 + d / 2) / r1 := by rw [e1, ← hd]; rfl
  have f2 : fm_factor_x (fm_left_range env idx) (env.current_left_offset_x idx) =
      (r2 + d / 2) / r2 := by rw [e2, ← hd]; rfl
  by_cases hpass : fm_checks_pass env idx
  · left
    refine ⟨_, start_feature_match_of_pass env res idx hcv hpass, ?_, ?_⟩
    · simp only
      by_cases hn : (idx + 1) % env.camera_num = idx
      · rw [hn, Function.update_same, Function.update_same, f1]
      · rw [Function.update_noteq (Ne.symm hn), Function.update_same, f1]
    · simp only
      rw [Function.update_same, f2]
  · right
    refine ⟨start_feature_match_of_fail env res idx hcv hpass, ?_⟩
    by_contra hcon
    rw [not_or, not_not, not_not] at hcon
    apply hpass
    unfold fm_checks_pass
    rw [f1, f2, e1, e2]
    exact ⟨h1, hcon.1, h2, hcon.2⟩

/-- Witness for C4: pair 0 of the sample (`r1 = 100`, `r2 = 50`, `d = 4`). -/
theorem start_feature_match_factors_witness :
    (∃ res1, start_feature_match sample_env sample_res 0 =
        Outcome.returned XCAM_RETURN_NO_ERROR res1 ∧
      (res1.mapper_factors 0).right = ⟨((100 : ℚ) + 4 / 2) / 100, 1⟩ ∧
      (res1.mapper_factors ((0 + 1) % sample_env.camera_num)).left =
        ⟨((50 : ℚ) + 4 / 2) / 50, 1⟩) ∨
    (start_feature_match sample_env sample_res 0 = Outcome.assert_failed sample_res ∧
      (¬ (0 < ((100 : ℚ) + 4 / 2) / 100 ∧ ((100 : ℚ) + 4 / 2) / 100 < 2) ∨
        ¬ (0 < ((50 : ℚ) + 4 / 2) / 50 ∧ ((50 : ℚ) + 4 / 2) / 50 < 2))) :=
  start_feature_match_factors sample_env sample_res 0 100 50 4 rfl
    (by norm_num [sample_env]) (by norm_num [sample_env]) rfl (by norm_num) (by norm_num)

/-- C5. For `N ≥ 2` and a pair `idx < N`, a successful `start_feature_match idx` stores
`right_factor` in the right pending slot of camera `idx` and `left_factor` in the left
pending slot of camera `(idx + 1) % N`; the other slot of these two cameras, every
pending slot of every other camera and every persistent GeoMapFactor are unchanged. -/
theorem start_feature_match_stores (env : Env) (res res1 : StitcherResource) (idx : Nat)
    (ret : XCamReturn)
    (hN : 2 ≤ env.camera_num) (hidx : idx < env.camera_num)
    (hrun : start_feature_match env res idx = Outcome.returned ret res1)
    (hret : xcam_ret_is_ok ret = true) :
    res1.mapper_factors idx =
      ⟨(res.mapper_factors idx).left,
        ⟨fm_factor_x (fm_right_range env idx) (env.current_left_offset_x idx), 1⟩⟩ ∧
    res1.mapper_factors ((idx + 1) % env.camera_num) =
      ⟨⟨fm_factor_x (fm_left_range env idx) (env.current_left_offset_x idx), 1⟩,
        (res.mapper_factors ((idx + 1) % env.camera_num)).right⟩ ∧
    (∀ j, j ≠ idx → j ≠ (idx + 1) % env.camera_num →
      res1.mapper_factors j = res.mapper_factors j) ∧
    res1.mapper = res.mapper := by
  have hn := next_idx_ne env.camera_num idx hN hidx
  cases hcv : env.have_opencv with
  | false =>
    rw [start_feature_match_no_opencv env res idx hcv] at hrun
    injection hrun with hr _
    rw [← hr] at hret
    exact absurd hret (by decide)
  | true =>
    by_cases hpass : fm_checks_pass env idx
    · rw [start_feature_match_of_pass env res idx hcv hpass] at hrun
      injection hrun with _ hres
      rw [← hres]
      refine ⟨?_, ?_, ?_, rfl⟩
      · simp only
        rw [Function.update_noteq (Ne.symm hn), Function.update_same]
      · simp only
        rw [Function.update_same, Function.update_noteq hn]
      · intro j h1 h2
        simp only
        rw [Function.update_noteq h2, Function.update_noteq h1]
    · rw [start_feature_match_of_fail env res idx hcv hpass] at hrun
      exact Outcome.noConfusion hrun

/-- Witness for C5: pair 2 of the three-camera sample, whose right camera is camera 0. -/
theorem start_feature_match_stores_witness :
    ∃ res1, start_feature_match sample_env sample_res 2 =
        Outcome.returned XCAM_RETURN_NO_ERROR res1 ∧
      (res1.mapper_factors 2 =
        ⟨(sample_res.mapper_factors 2).left,
          ⟨fm_factor_x (fm_right_range sample_env 2) (sample_env.current_left_offset_x 2), 1⟩⟩ ∧
      res1.mapper_factors ((2 + 1) % sample_env.camera_num) =
        ⟨⟨fm_factor_x (fm_left_range sample_env 2) (sample_env.current_left_offset_x 2), 1⟩,
          (sample_res.mapper_factors ((2 + 1) % sample_env.camera_num)).right⟩ ∧
      (∀ j, j ≠ 2 → j ≠ (2 + 1) % sample_env.camera_num →
        res1.mapper_factors j = sample_res.mapper_factors j) ∧
      res1.mapper = sample_res.mapper) :=
  ⟨_, start_feature_match_of_pass sample_env sample_res 2 rfl
      (by norm_num [fm_checks_pass, fm_right_range, fm_left_range, fm_factor_x,
        fm_factor_x_with, sample_env]),
    start_feature_match_stores sample_env sample_res _ 2 XCAM_RETURN_NO_ERROR
      (by decide) (by decide)
      (start_feature_match_of_pass sample_env sample_res 2 rfl
        (by norm_num [fm_checks_pass, fm_right_range, fm_left_range, fm_factor_x,
          fm_factor_x_with, sample_env]))
      rfl⟩

/-- C6. Whenever the range of either feedback branch is at most 1 pixel, exactly 1
included, `start_feature_match` fails and stores no correction: it stops at the
assertion with the resource untouched (or, in a build without the matcher, returns the
parameter error with the resource untouched). The division by `range` is never performed
with `range ≤ 1`: the outcome is the same for every division operation that agrees with
the exact one on denominators above 1. -/
theorem start_feature_match_range_rejected (env : Env) (res : StitcherResource) (idx : Nat)
    (hrange : fm_right_range env idx ≤ 1 ∨ fm_left_range env idx ≤ 1) :
    (start_feature_match env res idx = Outcome.assert_failed res ∨
      start_feature_match env res idx = Outcome.returned XCAM_RETURN_ERROR_PARAM res) ∧
    (∀ div : ℚ → ℚ → ℚ, (∀ a b, b > 1 → div a b = a / b) →
      start_feature_match_with div env res idx = start_feature_match env res idx) := by
  refine ⟨?_, fun div hdiv => start_feature_match_with_agree div env res idx hdiv⟩
  cases hcv : env.have_opencv with
  | false => exact Or.inr (start_feature_match_no_opencv env res idx hcv)
  | true =>
    left
    apply start_feature_match_of_fail env res idx hcv
    rintro ⟨h1, _, h3, _⟩
    rcases hrange with h | h
    · exact absurd h1 (not_lt.2 h)
    · exact absurd h3 (not_lt.2 h)

/-- Witness for C6: the first range is exactly 1 pixel. -/
theorem start_feature_match_range_rejected_witness :
    fm_right_range sample_env_range_one 0 = 1 ∧
    ((start_feature_match sample_env_range_one sample_res 0 =
        Outcome.assert_failed sample_res ∨
      start_feature_match sample_env_range_one sample_res 0 =
        Outcome.returned XCAM_RETURN_ERROR_PARAM sample_res) ∧
    (∀ div : ℚ → ℚ → ℚ, (∀ a b, b > 1 → div a b = a / b) →
      start_feature_match_with div sample_env_range_one sample_res 0 =
        start_feature_match sample_env_range_one sample_res 0)) :=
  ⟨by norm_num [fm_right_range, sample_env_range_one, sample_env],
    start_feature_match_range_rejected sample_env_range_one sample_res 0
      (Or.inl (by norm_num [fm_right_range, sample_env_range_one, sample_env]))⟩

/-- Counterexample to C7 as stated: with a computed factor of exactly 2.0 the call does
not skip the correction and carry on. `start_feature_match` stops at the assertion and
returns no status, and the `geomap_done` call that dispatched the blend (camera 0
completing after camera 2) does not complete. -/
theorem start_feature_match_factor_two_aborts :
    fm_right_range sample_env_factor_two 2 > 1 ∧
    fm_factor_x (fm_right_range sample_env_factor_two 2)
      (sample_env_factor_two.current_left_offset_x 2) = 2 ∧
    start_feature_match sample_env_factor_two sample_res 2 =
      Outcome.assert_failed sample_res ∧
    (¬ ∃ ret res1, start_feature_match sample_env_factor_two sample_res 2 =
      Outcome.returned ret res1) ∧
    geomap_done_all sample_env_factor_two none sample_res [2, 0] = none := by
  have hfail : ¬ fm_checks_pass sample_env_factor_two 2 := by
    norm_num [fm_checks_pass, fm_right_range, fm_factor_x, fm_factor_x_with,
      sample_env_factor_two, sample_env]
  have hrun : ∀ res, start_feature_match sample_env_factor_two res 2 =
      Outcome.assert_failed res :=
    fun res => start_feature_match_of_fail sample_env_factor_two res 2 rfl hfail
  refine ⟨?_, ?_, hrun sample_res, ?_, ?_⟩
  · norm_num [fm_right_range, sample_env_factor_two, sample_env]
  · norm_num [fm_right_range, fm_factor_x, fm_factor_x_with, sample_env_factor_two,
      sample_env]
  · rintro ⟨ret, res1, h⟩
    rw [hrun sample_res] at h
    exact Outcome.noConfusion h
  · have hnum : sample_env_factor_two.camera_num = 3 := rfl
    have hexec : ∀ p, sample_env_factor_two.blender_execute p = XCAM_RETURN_NO_ERROR :=
      fun _ => rfl
    have hcopy : ∀ i, sample_env_factor_two.copier_execute i = XCAM_RETURN_NO_ERROR :=
      fun _ => rfl
    have hcv : sample_env_factor_two.have_opencv = true := rfl
    have hen : sample_env_factor_two.fm_enabled = true := rfl
    simp [geomap_done_all, geomap_done, start_blenders, start_blender, update_blender_sync,
      hrun, hnum, hexec, hcopy, hcv, hen, Sync.is_synced, Sync.increment, Sync.reset, Sync.create,
      sample_res, xcam_ret_is_ok, start_copier, start_copier_loop, Function.update]

/-- C7, amended. In a build with the matcher, whenever one of the two correction factors
has an x component outside the open interval (0, 2), exactly 0.0 and exactly 2.0
included, it is rejected by the assertion: `start_feature_match` stops without returning
a status and every pending slot keeps its previous value. -/
theorem start_feature_match_factor_rejected (env : Env) (res : StitcherResource) (idx : Nat)
    (hcv : env.have_opencv = true)
    (hbad :
      ¬ (0 < fm_factor_x (fm_right_range env idx) (env.current_left_offset_x idx) ∧
        fm_factor_x (fm_right_range env idx) (env.current_left_offset_x idx) < 2) ∨
      ¬ (0 < fm_factor_x (fm_left_range env idx) (env.current_left_offset_x idx) ∧
        fm_factor_x (fm_left_range env idx) (env.current_left_offset_x idx) < 2)) :
    start_feature_match env res idx = Outcome.assert_failed res := by
  apply start_feature_match_of_fail env res idx hcv
  rintro ⟨_, h2, _, h4⟩
  rcases hbad with h | h
  · exact h h2
  · exact h h4

/-- Witness for the amended C7: a computed factor of exactly 0.0. -/
theorem start_feature_match_factor_rejected_witness :
    fm_factor_x (fm_right_range sample_env_factor_zero 1)
      (sample_env_factor_zero.current_left_offset_x 1) = 0 ∧
    start_feature_match sample_env_factor_zero sample_res 1 =
      Outcome.assert_failed sample_res :=
  ⟨by norm_num [fm_right_range, fm_factor_x, fm_factor_x_with, sample_env_factor_zero,
      sample_env],
    start_feature_match_factor_rejected sample_env_factor_zero sample_res 1 rfl
      (Or.inl (by norm_num [fm_right_range, fm_factor_x, fm_factor_x_with,
        sample_env_factor_zero, sample_env]))⟩

/-- C8. In single-scale mode, for a camera whose geomap handler exists and whose
persistent factor has a zero x or y component (the sentinel, zero being recognised as
around zero), `update_geomap_factors idx` returns true and leaves the whole resource,
hence the persistent factor and both pending slots of that camera, unchanged. -/
theorem update_geomap_factors_sentinel (env : Env) (res : StitcherResource) (idx : Nat)
    (mapper : VKGeoMapHandler)
    (hmode : env.scale_mode = GeoMapScaleMode.ScaleSingleConst)
    (hzero : env.double_equal_around 0 0 = true)
    (hmapper : res.mapper idx = some mapper)
    (hsentinel : mapper.factor_x = 0 ∨ mapper.factor_y = 0) :
    update_geomap_factors env res idx = (true, res) := by
  unfold update_geomap_factors
  simp only [hmapper, hmode, if_true]
  rcases hsentinel with h | h
  · simp [h, hzero]
  · simp [h, hzero]

/-- Witness for C8: camera 0 with factor `(0, 0)` and non-identity pending slots. -/
theorem update_geomap_factors_sentinel_witness :
    update_geomap_factors sample_env sample_res_sentinel 0 = (true, sample_res_sentinel) :=
  update_geomap_factors_sentinel sample_env sample_res_sentinel 0 ⟨0, 0⟩ rfl
    (by simp [sample_env]) rfl (Or.inl rfl)

/-! ## Feature matching disabled -/

theorem start_blender_fm_off (env : Env) (res : StitcherResource)
    (out_buf : Option VideoBuffer) (p : Nat) (hoff : env.fm_enabled = false) :
    ∃ ret res1, start_blender env res out_buf p = Outcome.returned ret res1 ∧
      res1.mapper = res.mapper ∧ res1.mapper_factors = res.mapper_factors := by
  unfold start_blender
  by_cases hs : (!(res.blender_sync p).is_synced) = true
  · simp only [hs, if_true]
    exact ⟨_, _, rfl, rfl, rfl⟩
  · simp only [hs, if_false, Bool.false_eq_true]
    by_cases hx : (!xcam_ret_is_ok (env.blender_execute p)) = true
    · simp only [hx, if_true]
      exact ⟨_, _, rfl, rfl, rfl⟩
    · simp only [hx, if_false, Bool.false_eq_true, hoff, Bool.and_false]
      exact ⟨_, _, rfl, rfl, rfl⟩

theorem geomap_done_fm_off (env : Env) (res : StitcherResource)
    (out_buf : Option VideoBuffer) (idx : Nat) (hoff : env.fm_enabled = false) :
    ∃ res1, geomap_done env res out_buf idx = some res1 ∧
      res1.mapper = res.mapper ∧ res1.mapper_factors = res.mapper_factors := by
  obtain ⟨ret1, r1, e1, m1, f1⟩ := start_blender_fm_off env (update_blender_sync env res idx)
    out_buf ((idx + env.camera_num - 1) % env.camera_num) hoff
  obtain ⟨ret2, r2, e2, m2, f2⟩ := start_blender_fm_off env r1 out_buf idx hoff
  have hu_m : (update_blender_sync env res idx).mapper = res.mapper := rfl
  have hu_f : (update_blender_sync env res idx).mapper_factors = res.mapper_factors := rfl
  unfold geomap_done start_blenders
  simp only [e1]
  by_cases hx : (!xcam_ret_is_ok ret1) = true
  · simp only [hx, if_true]
    obtain ⟨_, _, k3, k4⟩ := start_copier_loop_keeps env out_buf idx r1.copiers 0 r1
    exact ⟨_, rfl, by rw [start_copier, k3, m1, hu_m], by rw [start_copier, k4, f1, hu_f]⟩
  · simp only [hx, if_false, Bool.false_eq_true, e2]
    obtain ⟨_, _, k3, k4⟩ := start_copier_loop_keeps env out_buf idx r2.copiers 0 r2
    by_cases hy : (!xcam_ret_is_ok ret2) = true
    · simp only [hy, if_true]
      exact ⟨_, rfl, by rw [start_copier, k3, m2, m1, hu_m],
        by rw [start_copier, k4, f2, f1, hu_f]⟩
    · simp only [hy, if_false, Bool.false_eq_true]
      exact ⟨_, rfl, by rw [start_copier, k3, m2, m1, hu_m],
        by rw [start_copier, k4, f2, f1, hu_f]⟩

theorem geomap_done_all_fm_off (env : Env) (out_buf : Option VideoBuffer)
    (hoff : env.fm_enabled = false) :
    ∀ (order : List Nat) (res : StitcherResource),
      ∃ res1, geomap_done_all env out_buf res order = some res1 ∧
        res1.mapper = res.mapper ∧ res1.mapper_factors = res.mapper_factors := by
  intro order
  induction order with
  | nil => intro res; exact ⟨res, rfl, rfl, rfl⟩
  | cons idx rest ih =>
    intro res
    obtain ⟨r1, e1, m1, f1⟩ := geomap_done_fm_off env res out_buf idx hoff
    obtain ⟨r2, e2, m2, f2⟩ := ih r1
    refine ⟨r2, ?_, by rw [m2, m1], by rw [f2, f1]⟩
    simp only [geomap_done_all, e1]; exact e2

theorem start_geo_mappers_loop_fm_off (env : Env) (in_bufs : Nat → Option VideoBuffer)
    (hoff : env.fm_enabled = false) :
    ∀ (n idx : Nat) (res : StitcherResource),
      (start_geo_mappers_loop env in_bufs n idx res).2.mapper = res.mapper ∧
      (start_geo_mappers_loop env in_bufs n idx res).2.mapper_factors = res.mapper_factors := by
  intro n
  induction n with
  | zero => intro idx res; exact ⟨rfl, rfl⟩
  | succ n ih =>
    intro idx res
    unfold start_geo_mappers_loop
    simp only [hoff, Bool.false_eq_true, if_false]
    by_cases hx : (!xcam_ret_is_ok (env.mapper_execute idx)) = true
    · simp only [hx, if_true]; simp
    · simp only [hx, if_false, Bool.false_eq_true]
      obtain ⟨h1, h2⟩ := ih (idx + 1)
        { res with
          mapper_param := Function.update res.mapper_param idx
            { res.mapper_param idx with in_buf := in_bufs idx }
          geomap_log := res.geomap_log ++ [idx] }
      exact ⟨h1, h2⟩

/-- C9. With feature matching disabled (`fm_mode = FMNone`) in every frame, for any
number of frames, any delivered completions in any order and any dispatch statuses,
every frame runs to the end and no persistent GeoMapFactor and no pending correction slot
of any camera is changed: `start_geo_mappers` does not call `update_geomap_factors` and
`start_blender` does not call `start_feature_match`. -/
theorem stitch_frames_fm_none_keeps_factors (frames : List Frame) (res : StitcherResource)
    (hnone : ∀ f, f ∈ frames → f.env.fm_mode = FeatureMatchMode.FMNone) :
    ∃ res1, stitch_frames frames res = some res1 ∧
      res1.mapper = res.mapper ∧ res1.mapper_factors = res.mapper_factors := by
  induction frames generalizing res with
  | nil => exact ⟨res, rfl, rfl, rfl⟩
  | cons f rest ih =>
    have hoff : f.env.fm_enabled = false := by
      simp [Env.fm_enabled, hnone f (List.mem_cons_self f rest)]
    obtain ⟨g1, g2⟩ := start_geo_mappers_loop_fm_off f.env f.in_bufs hoff f.env.camera_num 0 res
    obtain ⟨r1, e1, m1, f1⟩ := geomap_done_all_fm_off f.env f.out_buf hoff f.order
      (start_geo_mappers f.env res f.in_bufs).2
    obtain ⟨r2, e2, m2, f2⟩ := ih r1 (fun g hg => hnone g (List.mem_cons_of_mem f hg))
    refine ⟨r2, ?_, ?_, ?_⟩
    · simp only [stitch_frames, stitch_frame, e1]; exact e2
    · rw [m2, m1]; exact g1
    · rw [f2, f1]; exact g2

/-- Witness for C9: two frames of the three-camera sample with feature matching off,
completions delivered in the orders 2, 0, 1 and 1, 2, 0. -/
theorem stitch_frames_fm_none_keeps_factors_witness :
    ∃ res1, stitch_frames
        [⟨sample_env_fm_none, fun _ => none, none, [2, 0, 1]⟩,
          ⟨sample_env_fm_none, fun _ => none, none, [1, 2, 0]⟩] sample_res_pending = some res1 ∧
      res1.mapper = sample_res_pending.mapper ∧
      res1.mapper_factors = sample_res_pending.mapper_factors :=
  stitch_frames_fm_none_keeps_factors
    [⟨sample_env_fm_none, fun _ => none, none, [2, 0, 1]⟩,
      ⟨sample_env_fm_none, fun _ => none, none, [1, 2, 0]⟩] sample_res_pending
    (fun f hf => by
      simp only [List.mem_cons, List.mem_singleton, List.not_mem_nil, or_false] at hf
      rcases hf with h | h <;> rw [h] <;> rfl)

/-- C10. In single-scale mode, for a camera with a non-sentinel persistent factor
`(fx, fy)` whose right pending slot holds `(r, 1)` and whose left slot holds the identity
`(1, 1)`, after `update_geomap_factors` both pending slots are the identity and the
persistent factor is `(fx * (1 + r) / 2, fy)`. -/
theorem update_geomap_factors_decay (env : Env) (res : StitcherResource) (idx : Nat)
    (fx fy r : ℚ)
    (hmode : env.scale_mode = GeoMapScaleMode.ScaleSingleConst)
    (hmapper : res.mapper idx = some ⟨fx, fy⟩)
    (hx : env.double_equal_around fx 0 = false)
    (hy : env.double_equal_around fy 0 = false)
    (hslots : res.mapper_factors idx = ⟨⟨1, 1⟩, ⟨r, 1⟩⟩) :
    (update_geomap_factors env res idx).1 = true ∧
    (update_geomap_factors env res idx).2.mapper_factors idx = ⟨⟨1, 1⟩, ⟨1, 1⟩⟩ ∧
    (update_geomap_factors env res idx).2.mapper idx = some ⟨fx * (1 + r) / 2, fy⟩ := by
  unfold update_geomap_factors
  simp only [hmapper, hmode, if_true, hx, hy, Bool.or_self, Bool.false_eq_true, if_false,
    calc_geomap_factors, hslots, VKGeoMapHandler.set_factors, Function.update_same, true_and,
    Factor.reset]
  congr 2
  · ring
  · ring

/-- Witness for C10: camera 0 with factor `(2, 3)` and `r = 1.1`; the new x factor is
`2 * 1.05`. -/
theorem update_geomap_factors_decay_witness :
    (update_geomap_factors sample_env sample_res_pending 0).1 = true ∧
    (update_geomap_factors sample_env sample_res_pending 0).2.mapper_factors 0 =
      ⟨⟨1, 1⟩, ⟨1, 1⟩⟩ ∧
    (update_geomap_factors sample_env sample_res_pending 0).2.mapper 0 =
      some ⟨2 * (1 + 11 / 10) / 2, 3⟩ :=
  update_geomap_factors_decay sample_env sample_res_pending 0 2 3 (11 / 10) rfl rfl
    (by simp [sample_env]) (by simp [sample_env]) rfl

/-! ## Zero offset -/

theorem fm_factor_x_zero_offset (range : ℚ) (hrange : range > 1) :
    fm_factor_x range 0 = 1 := by
  unfold fm_factor_x fm_factor_x_with
  have hne : range ≠ 0 := by
    intro h; rw [h] at hrange; exact absurd hrange (by norm_num)
  simp only [zero_div, add_zero]
  exact div_self hne

theorem fm_checks_pass_zero_offset (env : Env) (p : Nat)
    (hoff : env.current_left_offset_x p = 0)
    (hr1 : fm_right_range env p > 1) (hr2 : fm_left_range env p > 1) :
    fm_checks_pass env p := by
  unfold fm_checks_pass
  rw [hoff, fm_factor_x_zero_offset _ hr1, fm_factor_x_zero_offset _ hr2]
  exact ⟨hr1, ⟨by norm_num, by norm_num⟩, hr2, ⟨by norm_num, by norm_num⟩⟩

theorem start_blender_zero_offset (env : Env) (res : StitcherResource)
    (out_buf : Option VideoBuffer) (p : Nat)
    (hcv : env.have_opencv = true) (hen : env.fm_enabled = true)
    (hexec : xcam_ret_is_ok (env.blender_execute p) = true)
    (hoff : env.current_left_offset_x p = 0)
    (hr1 : fm_right_range env p > 1) (hr2 : fm_left_range env p > 1) :
    ∃ res1, start_blender env res out_buf p = Outcome.returned XCAM_RETURN_NO_ERROR res1 ∧
      res1.mapper = res.mapper ∧
      (∀ j, (res.mapper_factors j).right = ⟨1, 1⟩ → (res1.mapper_factors j).right = ⟨1, 1⟩) ∧
      (∀ j, (res.mapper_factors j).left = ⟨1, 1⟩ → (res1.mapper_factors j).left = ⟨1, 1⟩) ∧
      (∀ q, q ∈ res1.blend_log → q ∈ res.blend_log ∨
        (q = p ∧ (res1.mapper_factors p).right = ⟨1, 1⟩ ∧
          (res1.mapper_factors ((p + 1) % env.camera_num)).left = ⟨1, 1⟩)) := by
  cases hs : (res.blender_sync p).is_synced with
  | false =>
    refine ⟨res, start_blender_unsynced env res out_buf p hs, rfl, fun _ h => h,
      fun _ h => h, fun q hq => Or.inl hq⟩
  | true =>
    have hpass := fm_checks_pass_zero_offset env p hoff hr1 hr2
    have f1 := fm_factor_x_zero_offset _ hr1
    have f2 := fm_factor_x_zero_offset _ hr2
    unfold start_blender
    simp only [hs, hexec, Bool.not_true, Bool.false_eq_true, if_false, hcv, hen,
      Bool.and_self, if_true]
    rw [start_feature_match_of_pass env _ p hcv hpass]
    simp only [xcam_ret_is_ok, decide_True, Bool.not_true, Bool.false_eq_true, if_false]
    rw [hoff, f1, f2]
    refine ⟨_, rfl, rfl, ?_, ?_, ?_⟩
    · intro j hj
      simp only
      by_cases h1 : j = (p + 1) % env.camera_num
      · rw [← h1, Function.update_same]
        by_cases h2 : j = p
        · rw [h2, Function.update_same]
        · rw [Function.update_noteq h2]; exact hj
      · rw [Function.update_noteq h1]
        by_cases h2 : j = p
        · rw [h2, Function.update_same]
        · rw [Function.update_noteq h2]; exact hj
    · intro j hj
      simp only
      by_cases h1 : j = (p + 1) % env.camera_num
      · rw [← h1, Function.update_same]
      · rw [Function.update_noteq h1]
        by_cases h2 : j = p
        · rw [h2, Function.update_same]; rw [h2] at hj; exact hj
        · rw [Function.update_noteq h2]; exact hj
    · intro q hq
      simp only at hq ⊢
      rcases List.mem_append.1 hq with h | h
      · exact Or.inl h
      · right
        refine ⟨List.mem_singleton.1 h, ?_, ?_⟩
        · by_cases h1 : p = (p + 1) % env.camera_num
          · rw [← h1, Function.update_same]
            simp only [Function.update_same]
          · rw [Function.update_noteq h1, Function.update_same]
        · rw [Function.update_same]

theorem geomap_done_zero_offset (env : Env) (res : StitcherResource)
    (out_buf : Option VideoBuffer) (idx : Nat)
    (hN : 2 ≤ env.camera_num) (hidx : idx < env.camera_num)
    (hcv : env.have_opencv = true) (hen : env.fm_enabled = true)
    (hexec : ∀ p, p < env.camera_num → xcam_ret_is_ok (env.blender_execute p) = true)
    (hoff : ∀ p, p < env.camera_num → env.current_left_offset_x p = 0)
    (hr1 : ∀ p, p < env.camera_num → fm_right_range env p > 1)
    (hr2 : ∀ p, p < env.camera_num → fm_left_range env p > 1)
    (hinv : IdentitySlots env res) :
    ∃ res1, geomap_done env res out_buf idx = some res1 ∧
      IdentitySlots env res1 ∧ res1.mapper = res.mapper := by
  have hpre := pre_idx_lt env.camera_num idx hN
  obtain ⟨r2, e2, m2, kr2, kl2, n2⟩ := start_blender_zero_offset env
    (update_blender_sync env res idx) out_buf ((idx + env.camera_num - 1) % env.camera_num)
    hcv hen (hexec _ hpre) (hoff _ hpre) (hr1 _ hpre) (hr2 _ hpre)
  obtain ⟨r3, e3, m3, kr3, kl3, n3⟩ := start_blender_zero_offset env r2 out_buf idx
    hcv hen (hexec _ hidx) (hoff _ hidx) (hr1 _ hidx) (hr2 _ hidx)
  obtain ⟨_, k2, k3, k4⟩ := start_copier_loop_keeps env out_buf idx r3.copiers 0 r3
  refine ⟨(start_copier env r3 out_buf idx).2, ?_, ?_, ?_⟩
  · unfold geomap_done start_blenders
    simp only [e2, e3, xcam_ret_is_ok, decide_True, Bool.not_true, Bool.false_eq_true, if_false]
  · intro q hq
    unfold start_copier at hq ⊢
    rw [k2] at hq
    rw [k4]
    rcases n3 q hq with h | ⟨_, h1, h2⟩
    · rcases n2 q h with h0 | ⟨_, h1, h2⟩
      · obtain ⟨a, b⟩ := hinv q h0
        exact ⟨kr3 _ (kr2 _ a), kl3 _ (kl2 _ b)⟩
      · subst q
        exact ⟨kr3 _ h1, kl3 _ h2⟩
    · subst q
      exact ⟨h1, h2⟩
  · unfold start_copier
    rw [k3, m3, m2]; rfl

theorem geomap_done_all_zero_offset (env : Env) (out_buf : Option VideoBuffer)
    (hN : 2 ≤ env.camera_num)
    (hcv : env.have_opencv = true) (hen : env.fm_enabled = true)
    (hexec : ∀ p, p < env.camera_num → xcam_ret_is_ok (env.blender_execute p) = true)
    (hoff : ∀ p, p < env.camera_num → env.current_left_offset_x p = 0)
    (hr1 : ∀ p, p < env.camera_num → fm_right_range env p > 1)
    (hr2 : ∀ p, p < env.camera_num → fm_left_range env p > 1) :
    ∀ (order : List Nat) (res : StitcherResource),
      (∀ x, x ∈ order → x < env.camera_num) → IdentitySlots env res →
      ∃ res1, geomap_done_all env out_buf res order = some res1 ∧
        IdentitySlots env res1 ∧ res1.mapper = res.mapper := by
  intro order
  induction order with
  | nil => intro res _ hinv; exact ⟨res, rfl, hinv, rfl⟩
  | cons idx rest ih =>
    intro res hall hinv
    obtain ⟨r1, e1, i1, m1⟩ := geomap_done_zero_offset env res out_buf idx hN
      (hall idx (List.mem_cons_self idx rest)) hcv hen hexec hoff hr1 hr2 hinv
    obtain ⟨r2, e2, i2, m2⟩ := ih r1 (fun x hx => hall x (List.mem_cons_of_mem idx hx)) i1
    refine ⟨r2, ?_, i2, by rw [m2, m1]⟩
    simp only [geomap_done_all, e1]; exact e2

theorem update_geomap_factors_identity (env : Env) (res : StitcherResource) (idx : Nat)
    (hslots : res.mapper_factors idx = ⟨⟨1, 1⟩, ⟨1, 1⟩⟩) :
    (update_geomap_factors env res idx).2.mapper = res.mapper ∧
    (update_geomap_factors env res idx).2.mapper_factors = res.mapper_factors := by
  unfold update_geomap_factors
  cases hm : res.mapper idx with
  | none => exact ⟨rfl, rfl⟩
  | some mapper =>
    simp only
    by_cases hmode : env.scale_mode = GeoMapScaleMode.ScaleSingleConst
    · simp only [hmode, if_true]
      by_cases hz : (env.double_equal_around mapper.factor_x 0 ||
          env.double_equal_around mapper.factor_y 0) = true
      · simp only [hz, if_true]; simp
      · simp only [hz, if_false, Bool.false_eq_true, calc_geomap_factors, hslots,
          VKGeoMapHandler.set_factors, Factor.reset, Function.update_idem]
        refine ⟨?_, ?_⟩
        · have e : (⟨(mapper.factor_x * 1 + mapper.factor_x * 1) / 2,
              (mapper.factor_y * 1 + mapper.factor_y * 1) / 2⟩ : VKGeoMapHandler) = mapper := by
            cases mapper with
            | mk fx fy =>
              simp only [VKGeoMapHandler.mk.injEq]
              constructor <;> ring
          rw [e, ← hm, Function.update_eq_self]
        · funext j
          by_cases hj : j = idx
          · rw [hj, Function.update_same, hslots]
            simp only [Function.update_same]
          · rw [Function.update_noteq hj]
    · simp only [hmode, if_false]; simp

theorem start_geo_mappers_loop_identity (env : Env) (in_bufs : Nat → Option VideoBuffer) :
    ∀ (n idx : Nat) (res : StitcherResource),
      (∀ j, idx ≤ j → j < idx + n → res.mapper_factors j = ⟨⟨1, 1⟩, ⟨1, 1⟩⟩) →
      (start_geo_mappers_loop env in_bufs n idx res).2.mapper = res.mapper ∧
      (start_geo_mappers_loop env in_bufs n idx res).2.mapper_factors = res.mapper_factors := by
  intro n
  induction n with
  | zero => intro idx res _; exact ⟨rfl, rfl⟩
  | succ n ih =>
    intro idx res hslots
    obtain ⟨u1, u2⟩ := update_geomap_factors_identity env res idx
      (hslots idx (Nat.le_refl _) (by omega))
    have hres1 : ∀ b : Bool,
        ((if b = true then (update_geomap_factors env res idx).2 else res).mapper = res.mapper) ∧
        ((if b = true then (update_geomap_factors env res idx).2 else res).mapper_factors =
          res.mapper_factors) := by
      intro b
      cases b
      · exact ⟨rfl, rfl⟩
      · exact ⟨u1, u2⟩
    obtain ⟨w1, w2⟩ := hres1 env.fm_enabled
    unfold start_geo_mappers_loop
    simp only
    by_cases hx : (!xcam_ret_is_ok (env.mapper_execute idx)) = true
    · simp only [hx, if_true]; exact ⟨w1, w2⟩
    · simp only [hx, if_false, Bool.false_eq_true]
      obtain ⟨h1, h2⟩ := ih (idx + 1)
        { (if env.fm_enabled = true then (update_geomap_factors env res idx).2 else res) with
          mapper_param := Function.update
            (if env.fm_enabled = true then (update_geomap_factors env res idx).2
              else res).mapper_param idx
            { (if env.fm_enabled = true then (update_geomap_factors env res idx).2
                else res).mapper_param idx with in_buf := in_bufs idx }
          geomap_log := (if env.fm_enabled = true then (update_geomap_factors env res idx).2
            else res).geomap_log ++ [idx] }
        (fun j hj1 hj2 => by
          simp only
          rw [w2]; exact hslots j (by omega) (by omega))
      exact ⟨h1.trans w1, h2.trans w2⟩

/-- C11. If the matcher reports a horizontal offset of 0 for every pair and every range
is above 1, then both correction factors computed by `start_feature_match` for every pair
are `(1, 1)`; after a frame in which all `N` completions are handled (every blend
dispatch succeeding) every pending slot of every camera holds `(1, 1)` and no persistent
GeoMapFactor has changed, and the `start_geo_mappers` of the next frame, which runs
`update_geomap_factors` for every camera, leaves every persistent GeoMapFactor equal to
its value before that frame. -/
theorem zero_offset_keeps_factors (env env2 : Env) (res : StitcherResource)
    (out_buf : Option VideoBuffer) (order : List Nat) (in_bufs : Nat → Option VideoBuffer)
    (hN : 2 ≤ env.camera_num)
    (hperm : order.Perm (List.range env.camera_num))
    (h0 : ∀ p, p < env.camera_num → res.blender_sync p = Sync.create 2)
    (hlog : res.blend_log = [])
    (hcv : env.have_opencv = true) (hen : env.fm_enabled = true)
    (hexec : ∀ p, p < env.camera_num → xcam_ret_is_ok (env.blender_execute p) = true)
    (hoff : ∀ p, p < env.camera_num → env.current_left_offset_x p = 0)
    (hr1 : ∀ p, p < env.camera_num → fm_right_range env p > 1)
    (hr2 : ∀ p, p < env.camera_num → fm_left_range env p > 1)
    (hnum2 : env2.camera_num = env.camera_num) :
    (∀ p, p < env.camera_num →
      (⟨fm_factor_x (fm_right_range env p) (env.current_left_offset_x p), 1⟩ : Factor) = ⟨1, 1⟩ ∧
      (⟨fm_factor_x (fm_left_range env p) (env.current_left_offset_x p), 1⟩ : Factor) = ⟨1, 1⟩) ∧
    ∃ res1, geomap_done_all env out_buf res order = some res1 ∧
      (∀ j, j < env.camera_num → res1.mapper_factors j = ⟨⟨1, 1⟩, ⟨1, 1⟩⟩) ∧
      res1.mapper = res.mapper ∧
      (start_geo_mappers env2 res1 in_bufs).2.mapper = res1.mapper := by
  refine ⟨?_, ?_⟩
  · intro p hp
    rw [hoff p hp, fm_factor_x_zero_offset _ (hr1 p hp), fm_factor_x_zero_offset _ (hr2 p hp)]
    exact ⟨rfl, rfl⟩
  · have hmem : ∀ x, x ∈ order → x < env.camera_num := fun x hx =>
      List.mem_range.1 (hperm.mem_iff.1 hx)
    have hnodup : order.Nodup := hperm.nodup_iff.2 (List.nodup_range _)
    have hNpos : 0 < env.camera_num := by omega
    have hid0 : IdentitySlots env res := by
      intro p hp; rw [hlog] at hp; exact absurd hp (List.not_mem_nil p)
    have hinv0 : SyncInv env (fun _ => 0) res := by
      refine ⟨?_, ?_⟩
      · intro p hp
        rw [h0 p hp, hlog]
        simp [Sync.create]
      · intro p hp; rw [hlog] at hp; exact absurd hp (List.not_mem_nil p)
    obtain ⟨r, e, hid, hm⟩ := geomap_done_all_zero_offset env out_buf hN hcv hen hexec hoff
      hr1 hr2 order res hmem hid0
    obtain ⟨r', e', ⟨hs, _⟩⟩ := geomap_done_all_inv env out_buf hN
      (fun p hp => ⟨hexec p hp, fun _ _ => fm_checks_pass_zero_offset env p (hoff p hp)
        (hr1 p hp) (hr2 p hp)⟩) order res _ hmem hinv0
    have hrr : r' = r := by
      rw [e] at e'; exact (Option.some.inj e').symm
    rw [hrr] at hs
    have hcnt : ∀ q, q < env.camera_num → order.count q = 1 := fun q hq =>
      List.count_eq_one_of_mem hnodup (hperm.mem_iff.2 (List.mem_range.2 hq))
    have hin : ∀ p, p < env.camera_num → p ∈ r.blend_log := by
      intro p hp
      obtain ⟨_, _, h3⟩ := hs p hp
      simp only [zero_add] at h3
      rw [hcnt p hp, hcnt _ (Nat.mod_lt _ hNpos)] at h3
      exact List.count_pos_iff.1 (by omega)
    have hall : ∀ j, j < env.camera_num → r.mapper_factors j = ⟨⟨1, 1⟩, ⟨1, 1⟩⟩ := by
      intro j hj
      have hr := (hid j (hin j hj)).1
      have hl := (hid _ (hin _ (pre_idx_lt env.camera_num j hN))).2
      rw [pre_idx_succ env.camera_num j hN hj] at hl
      cases hmf : r.mapper_factors j with
      | mk l rr =>
        rw [hmf] at hr hl
        simp only at hr hl
        rw [hr, hl]
    refine ⟨r, e, hall, hm, ?_⟩
    unfold start_geo_mappers
    exact (start_geo_mappers_loop_identity env2 in_bufs env2.camera_num 0 r
      (fun j _ hj => hall j (by omega))).1

/-- Witness for C11: the three-camera sample with a zero offset for every pair,
completions in the order 1, 0, 2, starting from a non-identity pending slot. -/
theorem zero_offset_keeps_factors_witness :
    (∀ p, p < sample_env_zero_offset.camera_num →
      (⟨fm_factor_x (fm_right_range sample_env_zero_offset p)
        (sample_env_zero_offset.current_left_offset_x p), 1⟩ : Factor) = ⟨1, 1⟩ ∧
      (⟨fm_factor_x (fm_left_range sample_env_zero_offset p)
        (sample_env_zero_offset.current_left_offset_x p), 1⟩ : Factor) = ⟨1, 1⟩) ∧
    ∃ res1, geomap_done_all sample_env_zero_offset none sample_res_pending [1, 0, 2] =
        some res1 ∧
      (∀ j, j < sample_env_zero_offset.camera_num →
        res1.mapper_factors j = ⟨⟨1, 1⟩, ⟨1, 1⟩⟩) ∧
      res1.mapper = sample_res_pending.mapper ∧
      (start_geo_mappers sample_env res1 (fun _ => none)).2.mapper = res1.mapper :=
  zero_offset_keeps_factors sample_env_zero_offset sample_env sample_res_pending none
    [1, 0, 2] (fun _ => none) (by decide) (by decide) (fun _ _ => rfl) rfl rfl rfl
    (fun _ _ => rfl) (fun _ _ => rfl)
    (fun _ _ => by norm_num [fm_right_range, sample_env_zero_offset, sample_env])
    (fun _ _ => by norm_num [fm_left_range, sample_env_zero_offset, sample_env]) rfl

/-! ## Positivity of the persistent factor under feedback -/

theorem slot_in_range_identity : slot_in_range ⟨1, 1⟩ := by
  unfold slot_in_range
  norm_num

theorem update_geomap_factors_bound (env : Env) (res : StitcherResource) (idx : Nat)
    (fx fy : ℚ) (hm : res.mapper idx = some ⟨fx, fy⟩) (hfx : 0 < fx) (hfy : 0 < fy)
    (hl : slot_in_range (res.mapper_factors idx).left)
    (hr : slot_in_range (res.mapper_factors idx).right) :
    ∃ m, (update_geomap_factors env res idx).2.mapper idx = some m ∧
      0 < m.factor_x ∧ m.factor_x < 2 * fx ∧ 0 < m.factor_y ∧ m.factor_y < 2 * fy := by
  obtain ⟨l1, l2, l3, l4⟩ := hl
  obtain ⟨r1, r2, r3, r4⟩ := hr
  unfold update_geomap_factors
  simp only [hm]
  by_cases hmode : env.scale_mode = GeoMapScaleMode.ScaleSingleConst
  · simp only [hmode, if_true]
    by_cases hz : (env.double_equal_around fx 0 || env.double_equal_around fy 0) = true
    · simp only [hz, if_true]
      exact ⟨⟨fx, fy⟩, hm, hfx, by linarith, hfy, by linarith⟩
    · simp only [hz, if_false, Bool.false_eq_true, calc_geomap_factors,
        VKGeoMapHandler.set_factors, Function.update_same]
      refine ⟨_, rfl, ?_, ?_, ?_, ?_⟩
      · simp only
        have := mul_pos hfx l1
        have := mul_pos hfx r1
        linarith
      · simp only
        have h1 : fx * (res.mapper_factors idx).left.x < fx * 2 := mul_lt_mul_of_pos_left l2 hfx
        have h2 : fx * (res.mapper_factors idx).right.x < fx * 2 :=
          mul_lt_mul_of_pos_left r2 hfx
        linarith
      · simp only
        have := mul_pos hfy l3
        have := mul_pos hfy r3
        linarith
      · simp only
        have h1 : fy * (res.mapper_factors idx).left.y < fy * 2 := mul_lt_mul_of_pos_left l4 hfy
        have h2 : fy * (res.mapper_factors idx).right.y < fy * 2 :=
          mul_lt_mul_of_pos_left r4 hfy
        linarith
  · simp only [hmode, if_false]
    exact ⟨⟨fx, fy⟩, hm, hfx, by linarith, hfy, by linarith⟩

theorem update_geomap_factors_others (env : Env) (res : StitcherResource) (j : Nat) :
    (∀ k, k ≠ j → (update_geomap_factors env res j).2.mapper k = res.mapper k ∧
      (update_geomap_factors env res j).2.mapper_factors k = res.mapper_factors k) ∧
    ((update_geomap_factors env res j).2.mapper_factors j = res.mapper_factors j ∨
      (update_geomap_factors env res j).2.mapper_factors j = ⟨⟨1, 1⟩, ⟨1, 1⟩⟩) := by
  unfold update_geomap_factors
  cases hm : res.mapper j with
  | none => exact ⟨fun _ _ => ⟨rfl, rfl⟩, Or.inl rfl⟩
  | some mapper =>
    simp only
    by_cases hmode : env.scale_mode = GeoMapScaleMode.ScaleSingleConst
    · simp only [hmode, if_true]
      by_cases hz : (env.double_equal_around mapper.factor_x 0 ||
          env.double_equal_around mapper.factor_y 0) = true
      · simp only [hz, if_true]
        simp
      · simp only [hz, if_false, Bool.false_eq_true, calc_geomap_factors, Factor.reset,
          Function.update_same]
        refine ⟨fun k hk => ⟨Function.update_noteq hk _ _, ?_⟩, ?_⟩
        · rw [Function.update_noteq hk, Function.update_noteq hk]
        · exact Or.inr trivial
    · simp only [hmode, if_false]
      simp

theorem update_geomap_factors_inv (env : Env) (res : StitcherResource) (j idx : Nat)
    (hinv : FeedbackInv res idx) :
    FeedbackInv (update_geomap_factors env res j).2 idx := by
  obtain ⟨⟨m, hm, hx, hy⟩, hl, hr⟩ := hinv
  obtain ⟨hothers, hself⟩ := update_geomap_factors_others env res j
  by_cases hj : idx = j
  · subst hj
    obtain ⟨m1, e1, p1, _, p2, _⟩ := update_geomap_factors_bound env res idx m.factor_x
      m.factor_y hm hx hy hl hr
    refine ⟨⟨m1, e1, p1, p2⟩, ?_⟩
    rcases hself with h | h
    · rw [h]; exact ⟨hl, hr⟩
    · rw [h]; exact ⟨slot_in_range_identity, slot_in_range_identity⟩
  · obtain ⟨h1, h2⟩ := hothers idx hj
    refine ⟨⟨m, by rw [h1]; exact hm, hx, hy⟩, ?_⟩
    rw [h2]; exact ⟨hl, hr⟩

theorem start_feature_match_inv (env : Env) (res : StitcherResource) (p idx : Nat)
    (hinv : FeedbackInv res idx) :
    FeedbackInv (start_feature_match env res p).res idx := by
  cases hcv : env.have_opencv with
  | false => rw [start_feature_match_no_opencv env res p hcv]; exact hinv
  | true =>
    by_cases hpass : fm_checks_pass env p
    · rw [start_feature_match_of_pass env res p hcv hpass]
      obtain ⟨hm, hl, hr⟩ := hinv
      obtain ⟨_, ⟨a1, a2⟩, _, ⟨b1, b2⟩⟩ := hpass
      have hR : slot_in_range
          ⟨fm_factor_x (fm_right_range env p) (env.current_left_offset_x p), 1⟩ :=
        ⟨a1, a2, by norm_num, by norm_num⟩
      have hL : slot_in_range
          ⟨fm_factor_x (fm_left_range env p) (env.current_left_offset_x p), 1⟩ :=
        ⟨b1, b2, by norm_num, by norm_num⟩
      refine ⟨hm, ?_, ?_⟩
      · simp only [Outcome.res]
        by_cases h1 : idx = (p + 1) % env.camera_num
        · rw [← h1, Function.update_same]; exact hL
        · rw [Function.update_noteq h1]
          by_cases h2 : idx = p
          · rw [h2, Function.update_same]; rw [h2] at hl; exact hl
          · rw [Function.update_noteq h2]; exact hl
      · simp only [Outcome.res]
        by_cases h1 : idx = (p + 1) % env.camera_num
        · rw [← h1, Function.update_same]
          by_cases h2 : idx = p
          · rw [h2, Function.update_same]; exact hR
          · rw [Function.update_noteq h2]; exact hr
        · rw [Function.update_noteq h1]
          by_cases h2 : idx = p
          · rw [h2, Function.update_same]; exact hR
          · rw [Function.update_noteq h2]; exact hr
    · rw [start_feature_match_of_fail env res p hcv hpass]; exact hinv

theorem feedback_run_inv (ops : List FeedbackOp) (res : StitcherResource) (idx : Nat)
    (hinv : FeedbackInv res idx) : FeedbackInv (feedback_run ops res) idx := by
  unfold feedback_run
  induction ops generalizing res with
  | nil => exact hinv
  | cons op rest ih =>
    simp only [List.foldl_cons]
    apply ih
    cases op with
    | update env j => exact update_geomap_factors_inv env res j idx hinv
    | feature_match env p => exact start_feature_match_inv env res p idx hinv

theorem FeedbackInv_congr (res res1 : StitcherResource) (idx : Nat)
    (hm : res1.mapper = res.mapper) (hf : res1.mapper_factors = res.mapper_factors)
    (hinv : FeedbackInv res idx) : FeedbackInv res1 idx := by
  unfold FeedbackInv at hinv ⊢
  rw [hm, hf]; exact hinv

theorem start_blender_feedback_inv (env : Env) (res : StitcherResource)
    (out_buf : Option VideoBuffer) (p idx : Nat) (hinv : FeedbackInv res idx) :
    FeedbackInv (start_blender env res out_buf p).res idx := by
  unfold start_blender
  by_cases hs : (!(res.blender_sync p).is_synced) = true
  · simp only [hs, if_true]; exact hinv
  · simp only [hs, if_false, Bool.false_eq_true]
    by_cases hx : (!xcam_ret_is_ok (env.blender_execute p)) = true
    · simp only [hx, if_true]
      exact FeedbackInv_congr res _ idx rfl rfl hinv
    · simp only [hx, if_false, Bool.false_eq_true]
      by_cases hc : (env.have_opencv && env.fm_enabled) = true
      · simp only [hc, if_true]
        have h3 := start_feature_match_inv env
          { res with
            blender_sync := Function.update res.blender_sync p (res.blender_sync p).reset
            blender_param := Function.update res.blender_param p
              { res.blender_param p with out_buf := out_buf }
            blend_log := res.blend_log ++ [p] } p idx
          (FeedbackInv_congr res _ idx rfl rfl hinv)
        cases hfm : start_feature_match env
          { res with
            blender_sync := Function.update res.blender_sync p (res.blender_sync p).reset
            blender_param := Function.update res.blender_param p
              { res.blender_param p with out_buf := out_buf }
            blend_log := res.blend_log ++ [p] } p with
        | returned ret r4 =>
          rw [hfm] at h3
          simp only
          by_cases hr : (!xcam_ret_is_ok ret) = true
          · simp only [hr, if_true]; exact h3
          · simp only [hr, if_false, Bool.false_eq_true]; exact h3
        | assert_failed r4 =>
          rw [hfm] at h3
          exact h3
      · simp only [hc, if_false, Bool.false_eq_true]
        exact FeedbackInv_congr res _ idx rfl rfl hinv

theorem start_blenders_feedback_inv (env : Env) (res : StitcherResource)
    (out_buf : Option VideoBuffer) (c idx : Nat) (hinv : FeedbackInv res idx) :
    FeedbackInv (start_blenders env res out_buf c).res idx := by
  have h1 := start_blender_feedback_inv env res out_buf
    ((c + env.camera_num - 1) % env.camera_num) idx hinv
  cases hb : start_blender env res out_buf ((c + env.camera_num - 1) % env.camera_num) with
  | assert_failed r1 =>
    rw [hb] at h1
    unfold start_blenders
    simp only [hb]
    exact h1
  | returned ret r1 =>
    rw [hb] at h1
    by_cases hr : (!xcam_ret_is_ok ret) = true
    · unfold start_blenders
      simp only [hb, hr, if_true]; exact h1
    · have h2 := start_blender_feedback_inv env r1 out_buf c idx h1
      cases hb2 : start_blender env r1 out_buf c with
      | assert_failed r2 =>
        rw [hb2] at h2
        unfold start_blenders
        simp only [hb, hr, if_false, Bool.false_eq_true, hb2]
        exact h2
      | returned ret2 r2 =>
        rw [hb2] at h2
        unfold start_blenders
        simp only [hb, hr, if_false, Bool.false_eq_true, hb2]
        by_cases hr2 : (!xcam_ret_is_ok ret2) = true
        · simp only [hr2, if_true]; exact h2
        · simp only [hr2, if_false, Bool.false_eq_true]; exact h2

theorem geomap_done_feedback_inv (env : Env) (res res1 : StitcherResource)
    (out_buf : Option VideoBuffer) (c idx : Nat) (hinv : FeedbackInv res idx)
    (hrun : geomap_done env res out_buf c = some res1) : FeedbackInv res1 idx := by
  unfold geomap_done at hrun
  have h1 := start_blenders_feedback_inv env (update_blender_sync env res c) out_buf c idx
    (FeedbackInv_congr res _ idx rfl rfl hinv)
  cases hb : start_blenders env (update_blender_sync env res c) out_buf c with
  | assert_failed r1 => simp only [hb] at hrun; exact absurd hrun (by simp)
  | returned ret r1 =>
    rw [hb] at h1
    simp only [hb, Option.some.injEq] at hrun
    rw [← hrun]
    obtain ⟨_, _, k3, k4⟩ := start_copier_loop_keeps env out_buf c r1.copiers 0 r1
    exact FeedbackInv_congr r1 _ idx k3 k4 h1

theorem geomap_done_all_feedback_inv (env : Env) (out_buf : Option VideoBuffer) (idx : Nat) :
    ∀ (order : List Nat) (res res1 : StitcherResource), FeedbackInv res idx →
      geomap_done_all env out_buf res order = some res1 → FeedbackInv res1 idx := by
  intro order
  induction order with
  | nil =>
    intro res res1 hinv hrun
    simp only [geomap_done_all, Option.some.injEq] at hrun
    rw [← hrun]; exact hinv
  | cons c rest ih =>
    intro res res1 hinv hrun
    simp only [geomap_done_all] at hrun
    cases hg : geomap_done env res out_buf c with
    | none => rw [hg] at hrun; exact absurd hrun (by simp)
    | some r1 =>
      rw [hg] at hrun
      exact ih r1 res1 (geomap_done_feedback_inv env res r1 out_buf c idx hinv hg) hrun

theorem start_geo_mappers_loop_feedback_inv (env : Env) (in_bufs : Nat → Option VideoBuffer)
    (idx : Nat) :
    ∀ (n j : Nat) (res : StitcherResource), FeedbackInv res idx →
      FeedbackInv (start_geo_mappers_loop env in_bufs n j res).2 idx := by
  intro n
  induction n with
  | zero => intro j res hinv; exact hinv
  | succ n ih =>
    intro j res hinv
    have h1 : FeedbackInv
        (if env.fm_enabled = true then (update_geomap_factors env res j).2 else res) idx := by
      by_cases hen : env.fm_enabled = true
      · simp only [hen, if_true]; exact update_geomap_factors_inv env res j idx hinv
      · simp only [hen, if_false, Bool.false_eq_true]; exact hinv
    unfold start_geo_mappers_loop
    simp only
    by_cases hx : (!xcam_ret_is_ok (env.mapper_execute j)) = true
    · simp only [hx, if_true]
      exact FeedbackInv_congr _ _ idx rfl rfl h1
    · simp only [hx, if_false, Bool.false_eq_true]
      exact ih (j + 1) _ (FeedbackInv_congr _ _ idx rfl rfl h1)

theorem stitch_frames_feedback_inv (idx : Nat) :
    ∀ (frames : List Frame) (res res1 : StitcherResource), FeedbackInv res idx →
      stitch_frames frames res = some res1 → FeedbackInv res1 idx := by
  intro frames
  induction frames with
  | nil =>
    intro res res1 hinv hrun
    simp only [stitch_frames, Option.some.injEq] at hrun
    rw [← hrun]; exact hinv
  | cons f rest ih =>
    intro res res1 hinv hrun
    simp only [stitch_frames] at hrun
    cases hf : stitch_frame f res with
    | none => rw [hf] at hrun; exact absurd hrun (by simp)
    | some r1 =>
      rw [hf] at hrun
      refine ih r1 res1 ?_ hrun
      unfold stitch_frame at hf
      exact geomap_done_all_feedback_inv f.env f.out_buf idx f.order _ r1
        (start_geo_mappers_loop_feedback_inv f.env f.in_bufs idx f.env.camera_num 0 res hinv) hf

/-- C20. In exact arithmetic, for a camera whose persistent factor components `fx`, `fy`
are strictly positive and whose two pending slots have all components in the open
interval (0, 2), `update_geomap_factors` yields a factor whose components are strictly
positive and strictly below `2 * fx` and `2 * fy`; hence the factor components stay
strictly positive, so never return to the zero sentinel, after any sequence of slot
consumptions and feature matches, and after any sequence of frames that run to the end. -/
theorem feedback_keeps_factor_positive (res : StitcherResource) (idx : Nat) (fx fy : ℚ)
    (hm : res.mapper idx = some ⟨fx, fy⟩) (hfx : 0 < fx) (hfy : 0 < fy)
    (hl : slot_in_range (res.mapper_factors idx).left)
    (hr : slot_in_range (res.mapper_factors idx).right) :
    (∀ env, ∃ m, (update_geomap_factors env res idx).2.mapper idx = some m ∧
      0 < m.factor_x ∧ m.factor_x < 2 * fx ∧ 0 < m.factor_y ∧ m.factor_y < 2 * fy) ∧
    (∀ ops, ∃ m, (feedback_run ops res).mapper idx = some m ∧
      0 < m.factor_x ∧ 0 < m.factor_y) ∧
    (∀ frames res1, stitch_frames frames res = some res1 →
      ∃ m, res1.mapper idx = some m ∧ 0 < m.factor_x ∧ 0 < m.factor_y) := by
  have hinv : FeedbackInv res idx := ⟨⟨⟨fx, fy⟩, hm, hfx, hfy⟩, hl, hr⟩
  refine ⟨fun env => update_geomap_factors_bound env res idx fx fy hm hfx hfy hl hr, ?_, ?_⟩
  · intro ops
    exact (feedback_run_inv ops res idx hinv).1
  · intro frames res1 hrun
    exact (stitch_frames_feedback_inv idx frames res res1 hinv hrun).1

/-- Witness for C20: camera 0 of the sample, factor `(2, 3)`, right slot `(1.1, 1)`. -/
theorem feedback_keeps_factor_positive_witness :
    (∀ env, ∃ m, (update_geomap_factors env sample_res_pending 0).2.mapper 0 = some m ∧
      0 < m.factor_x ∧ m.factor_x < 2 * 2 ∧ 0 < m.factor_y ∧ m.factor_y < 2 * 3) ∧
    (∀ ops, ∃ m, (feedback_run ops sample_res_pending).mapper 0 = some m ∧
      0 < m.factor_x ∧ 0 < m.factor_y) ∧
    (∀ frames res1, stitch_frames frames sample_res_pending = some res1 →
      ∃ m, res1.mapper 0 = some m ∧ 0 < m.factor_x ∧ 0 < m.factor_y) :=
  feedback_keeps_factor_positive sample_res_pending 0 2 3 rfl (by norm_num) (by norm_num)
    (by norm_num [slot_in_range, sample_res_pending, Factor.identity])
    (by norm_num [slot_in_range, sample_res_pending, Factor.identity])

/-! ## Starting a frame -/

theorem update_geomap_factors_log (env : Env) (res : StitcherResource) (idx : Nat) :
    (update_geomap_factors env res idx).2.geomap_log = res.geomap_log := by
  unfold update_geomap_factors
  cases hm : res.mapper idx with
  | none => rfl
  | some mapper =>
    simp only
    by_cases hmode : env.scale_mode = GeoMapScaleMode.ScaleSingleConst
    · simp only [hmode, if_true]
      by_cases hz : (env.double_equal_around mapper.factor_x 0 ||
          env.double_equal_around mapper.factor_y 0) = true
      · simp only [hz, if_true]
      · simp only [hz, if_false, Bool.false_eq_true, calc_geomap_factors]
    · simp only [hmode, if_false]

/-- C18, evaluated at the failing input: three cameras, the geomap dispatch of camera 1
fails with `XCAM_RETURN_ERROR_MEM`. `start_geo_mappers` returns that error at once and
camera 2 is not dispatched, but `start_work` returns `XCAM_RETURN_ERROR_PARAM` to its
caller instead of the error of the dispatch. -/
theorem start_work_replaces_error :
    (start_geo_mappers sample_env_geomap_fails sample_res (fun i => some ⟨i⟩)).1 =
      XCAM_RETURN_ERROR_MEM ∧
    (start_geo_mappers sample_env_geomap_fails sample_res (fun i => some ⟨i⟩)).2.geomap_log =
      [0, 1] ∧
    ∃ res1, start_work sample_env_geomap_fails sample_res ⟨fun i => some ⟨i⟩, 3, none⟩ =
        Outcome.returned XCAM_RETURN_ERROR_PARAM res1 ∧ res1.geomap_log = [0, 1] :=
  ⟨rfl, rfl, _, rfl, rfl⟩

/-! ## A failed blend dispatch -/

/-- C17, evaluated at the failing input: three cameras completing in the order 1, 2, 0,
the blend dispatch of pair 2 failing. The completion of camera 0 brings the counters of
pairs 2 and 0 to their target together; `start_blenders` returns as soon as the dispatch
of pair 2 fails, so pair 0 is neither dispatched nor reset: after the three completions
its counter is 2, not 0. In the following frame, with every dispatch succeeding, that
counter goes on to 4 and blend 0 is not dispatched at all. -/
theorem failed_blend_leaves_counter :
    ∃ res1, geomap_done_all sample_env_blend_fails none sample_res [1, 2, 0] = some res1 ∧
      res1.blend_log = [1, 2] ∧
      (res1.blender_sync 0).count = 2 ∧
      (res1.blender_sync 1).count = 0 ∧
      (res1.blender_sync 2).count = 0 ∧
      ∃ res2, geomap_done_all sample_env_fm_none none { res1 with blend_log := [] }
          [1, 2, 0] = some res2 ∧
        res2.blend_log = [1, 2] ∧
        (res2.blender_sync 0).count = 4 :=
  ⟨_, rfl, rfl, rfl, rfl, rfl, _, rfl, rfl, rfl⟩

/-! ## Copy stage -/

theorem start_copier_loop_copiers (env : Env) (out_buf : Option VideoBuffer) (idx : Nat)
    (l : List Nat) (i : Nat) (res : StitcherResource) :
    (start_copier_loop env out_buf idx l i res).2.copiers = res.copiers := by
  induction l generalizing i res with
  | nil => rfl
  | cons a rest ih =>
    unfold start_copier_loop
    by_cases h : a ≠ idx
    · rw [if_pos h]; exact ih (i + 1) res
    · rw [if_neg h]
      by_cases hx : (!xcam_ret_is_ok (env.copier_execute i)) = true
      · simp only [hx, if_true]
      · simp only [hx, if_false, Bool.false_eq_true]
        exact ih (i + 1) { res with copy_log := res.copy_log ++ [i] }

theorem start_copier_loop_spec (env : Env) (out_buf : Option VideoBuffer) (idx : Nat) :
    ∀ (l : List Nat) (i0 : Nat) (res : StitcherResource),
      (∀ i, i0 ≤ i → i < i0 + l.length → xcam_ret_is_ok (env.copier_execute i) = true) →
      ∃ out, (start_copier_loop env out_buf idx l i0 res).2.copy_log = res.copy_log ++ out ∧
        (start_copier_loop env out_buf idx l i0 res).1 = XCAM_RETURN_NO_ERROR ∧
        out.Sorted (· < ·) ∧
        ∀ i, i ∈ out ↔ (i0 ≤ i ∧ l.get? (i - i0) = some idx) := by
  intro l
  induction l with
  | nil =>
    intro i0 res _
    refine ⟨[], by simp [start_copier_loop], rfl, List.sorted_nil, ?_⟩
    intro i; simp
  | cons a rest ih =>
    intro i0 res hexec
    have hexec1 : ∀ i, i0 + 1 ≤ i → i < i0 + 1 + rest.length →
        xcam_ret_is_ok (env.copier_execute i) = true := by
      intro i h1 h2
      apply hexec i (by omega)
      simp only [List.length_cons]; omega
    have hexec0 : xcam_ret_is_ok (env.copier_execute i0) = true := by
      apply hexec i0 (Nat.le_refl _)
      simp only [List.length_cons]; omega
    unfold start_copier_loop
    by_cases h : a ≠ idx
    · rw [if_pos h]
      obtain ⟨out, h1, h2, h3, h4⟩ := ih (i0 + 1) res hexec1
      refine ⟨out, h1, h2, h3, ?_⟩
      intro i
      rw [h4]
      constructor
      · rintro ⟨hle, hget⟩
        refine ⟨by omega, ?_⟩
        have : i - i0 = (i - (i0 + 1)) + 1 := by omega
        rw [this, List.get?_cons_succ]; exact hget
      · rintro ⟨hle, hget⟩
        by_cases hi : i = i0
        · subst hi
          simp only [Nat.sub_self, List.get?_cons_zero, Option.some.injEq] at hget
          exact absurd hget h
        · refine ⟨by omega, ?_⟩
          have : i - i0 = (i - (i0 + 1)) + 1 := by omega
          rw [this, List.get?_cons_succ] at hget; exact hget
    · rw [if_neg h]
      have ha : a = idx := not_not.1 h
      simp only [hexec0, Bool.not_true, Bool.false_eq_true, if_false]
      obtain ⟨out, h1, h2, h3, h4⟩ := ih (i0 + 1) { res with copy_log := res.copy_log ++ [i0] }
        hexec1
      refine ⟨i0 :: out, ?_, h2, ?_, ?_⟩
      · rw [h1]; simp
      · rw [List.sorted_cons]
        refine ⟨?_, h3⟩
        intro b hb
        have := ((h4 b).1 hb).1
        omega
      · intro i
        rw [List.mem_cons, h4]
        constructor
        · rintro (hi | ⟨hle, hget⟩)
          · subst hi
            exact ⟨Nat.le_refl _, by simp [ha]⟩
          · refine ⟨by omega, ?_⟩
            have : i - i0 = (i - (i0 + 1)) + 1 := by omega
            rw [this, List.get?_cons_succ]; exact hget
        · rintro ⟨hle, hget⟩
          by_cases hi : i = i0
          · exact Or.inl hi
          · right
            refine ⟨by omega, ?_⟩
            have : i - i0 = (i - (i0 + 1)) + 1 := by omega
            rw [this, List.get?_cons_succ] at hget; exact hget

theorem start_blender_returns (env : Env) (res : StitcherResource)
    (out_buf : Option VideoBuffer) (p : Nat)
    (hfm : env.have_opencv = true → env.fm_enabled = true →
      xcam_ret_is_ok (env.blender_execute p) = true → fm_checks_pass env p) :
    ∃ ret res1, start_blender env res out_buf p = Outcome.returned ret res1 ∧
      res1.copy_log = res.copy_log ∧ res1.copiers = res.copiers := by
  unfold start_blender
  by_cases hs : (!(res.blender_sync p).is_synced) = true
  · simp only [hs, if_true]
    exact ⟨_, _, rfl, rfl, rfl⟩
  · simp only [hs, if_false, Bool.false_eq_true]
    by_cases hx : (!xcam_ret_is_ok (env.blender_execute p)) = true
    · simp only [hx, if_true]
      exact ⟨_, _, rfl, rfl, rfl⟩
    · simp only [hx, if_false, Bool.false_eq_true]
      have hexec : xcam_ret_is_ok (env.blender_execute p) = true := by
        cases h : xcam_ret_is_ok (env.blender_execute p) with
        | false => rw [h] at hx; exact absurd rfl hx
        | true => rfl
      by_cases hc : (env.have_opencv && env.fm_enabled) = true
      · have hcv : env.have_opencv = true := by
          cases h : env.have_opencv <;> simp [h] at hc ⊢
        have hen : env.fm_enabled = true := by
          cases h : env.fm_enabled <;> simp [h] at hc ⊢
        simp only [hc, if_true]
        rw [start_feature_match_of_pass env _ p hcv (hfm hcv hen hexec)]
        simp only [xcam_ret_is_ok, decide_True, Bool.not_true, Bool.false_eq_true, if_false]
        exact ⟨_, _, rfl, rfl, rfl⟩
      · simp only [hc, if_false, Bool.false_eq_true]
        exact ⟨_, _, rfl, rfl, rfl⟩

theorem geomap_done_copy (env : Env) (res : StitcherResource)
    (out_buf : Option VideoBuffer) (idx : Nat)
    (hidx : idx < env.camera_num)
    (hexec : ∀ i, i < res.copiers.length → xcam_ret_is_ok (env.copier_execute i) = true)
    (hfm : ∀ p, p < env.camera_num → env.have_opencv = true → env.fm_enabled = true →
      xcam_ret_is_ok (env.blender_execute p) = true → fm_checks_pass env p) :
    ∃ res1 out, geomap_done env res out_buf idx = some res1 ∧
      res1.copiers = res.copiers ∧
      res1.copy_log = res.copy_log ++ out ∧
      out.Sorted (· < ·) ∧
      ∀ i, i ∈ out ↔ res.copiers.get? i = some idx := by
  have hpre : (idx + env.camera_num - 1) % env.camera_num < env.camera_num :=
    Nat.mod_lt _ (by omega)
  obtain ⟨ret1, r1, e1, l1, c1⟩ := start_blender_returns env (update_blender_sync env res idx)
    out_buf ((idx + env.camera_num - 1) % env.camera_num) (hfm _ hpre)
  obtain ⟨ret2, r2, e2, l2, c2⟩ := start_blender_returns env r1 out_buf idx (hfm _ hidx)
  have hu_l : (update_blender_sync env res idx).copy_log = res.copy_log := rfl
  have hu_c : (update_blender_sync env res idx).copiers = res.copiers := rfl
  have key : ∀ r : StitcherResource, r.copy_log = res.copy_log → r.copiers = res.copiers →
      ∃ out, (start_copier env r out_buf idx).2.copiers = res.copiers ∧
        (start_copier env r out_buf idx).2.copy_log = res.copy_log ++ out ∧
        out.Sorted (· < ·) ∧ ∀ i, i ∈ out ↔ res.copiers.get? i = some idx := by
    intro r hl hc
    unfold start_copier
    obtain ⟨out, h1, _, h3, h4⟩ := start_copier_loop_spec env out_buf idx r.copiers 0 r
      (fun i _ hi => hexec i (by rw [← hc]; omega))
    refine ⟨out, ?_, ?_, h3, ?_⟩
    · rw [start_copier_loop_copiers, hc]
    · rw [h1, hl]
    · intro i
      rw [h4 i, hc]
      simp
  unfold geomap_done start_blenders
  simp only [e1]
  by_cases hx : (!xcam_ret_is_ok ret1) = true
  · simp only [hx, if_true]
    obtain ⟨out, k1, k2, k3, k4⟩ := key r1 (by rw [l1, hu_l]) (by rw [c1, hu_c])
    exact ⟨_, out, rfl, k1, k2, k3, k4⟩
  · simp only [hx, if_false, Bool.false_eq_true, e2]
    obtain ⟨out, k1, k2, k3, k4⟩ := key r2 (by rw [l2, l1, hu_l]) (by rw [c2, c1, hu_c])
    by_cases hy : (!xcam_ret_is_ok ret2) = true
    · simp only [hy, if_true]
      exact ⟨_, out, rfl, k1, k2, k3, k4⟩
    · simp only [hy, if_false, Bool.false_eq_true]
      exact ⟨_, out, rfl, k1, k2, k3, k4⟩

theorem geomap_done_all_copy (env : Env) (out_buf : Option VideoBuffer) (copiers : List Nat)
    (hexec : ∀ i, i < copiers.length → xcam_ret_is_ok (env.copier_execute i) = true)
    (hfm : ∀ p, p < env.camera_num → env.have_opencv = true → env.fm_enabled = true →
      xcam_ret_is_ok (env.blender_execute p) = true → fm_checks_pass env p) :
    ∀ (order : List Nat) (res : StitcherResource) (c : Nat → Nat),
      (∀ x, x ∈ order → x < env.camera_num) → CopyInv copiers c res →
      ∃ res1, geomap_done_all env out_buf res order = some res1 ∧
        CopyInv copiers (fun s => c s + order.count s) res1 := by
  intro order
  induction order with
  | nil =>
    intro res c _ hinv
    exact ⟨res, rfl, by simpa using hinv⟩
  | cons idx rest ih =>
    intro res c hall hinv
    obtain ⟨hcop, hcnt⟩ := hinv
    obtain ⟨r1, out, e1, k1, k2, k3, k4⟩ := geomap_done_copy env res out_buf idx
      (hall idx (List.mem_cons_self idx rest)) (by rw [hcop]; exact hexec) hfm
    have hnodup : out.Nodup := k3.nodup
    have hinv1 : CopyInv copiers (fun s => c s + if s = idx then 1 else 0) r1 := by
      refine ⟨by rw [k1, hcop], ?_⟩
      intro i
      rw [k2, List.count_append, hcnt i]
      rw [hcop] at k4
      cases hg : copiers.get? i with
      | none =>
        simp only
        rw [List.count_eq_zero_of_not_mem]
        intro hmem
        rw [k4, hg] at hmem
        exact absurd hmem (by simp)
      | some s =>
        simp only
        by_cases hs : s = idx
        · rw [if_pos hs, List.count_eq_one_of_mem hnodup]
          rw [k4, hg, hs]
        · rw [if_neg hs, List.count_eq_zero_of_not_mem]
          intro hmem
          rw [k4, hg] at hmem
          exact hs (Option.some.inj hmem)
    obtain ⟨r2, e2, i2⟩ := ih r1 _ (fun x hx => hall x (List.mem_cons_of_mem idx hx)) hinv1
    refine ⟨r2, ?_, ?_⟩
    · simp only [geomap_done_all, e1]; exact e2
    · have hfun : (fun s => c s + (idx :: rest).count s) =
          (fun s => (c s + if s = idx then 1 else 0) + rest.count s) := by
        funext s
        rw [List.count_cons]
        by_cases hq : s = idx
        · subst hq; simp; omega
        · have : ¬ (idx = s) := fun h => hq h.symm
          simp [hq, this]
      rw [hfun]; exact i2

/-- Counterexample to C15 as stated: copy units 0 and 1 both read camera 0 and the
dispatch of unit 0 fails. `start_copier 0` returns at once, unit 1 is not dispatched, and
after all three completions of the frame the copy log is `[0, 2, 3]`: unit 1 was never
dispatched. -/
theorem start_copier_stops_at_failure :
    sample_res_four_copiers.copiers = [0, 0, 1, 2] ∧
    (start_copier sample_env_copy_fails sample_res_four_copiers none 0).1 =
      XCAM_RETURN_ERROR_UNKNOWN ∧
    (start_copier sample_env_copy_fails sample_res_four_copiers none 0).2.copy_log = [0] ∧
    ∃ res1, geomap_done_all sample_env_copy_fails none sample_res_four_copiers [0, 1, 2] =
        some res1 ∧ res1.copy_log = [0, 2, 3] :=
  ⟨rfl, rfl, rfl, _, rfl, rfl⟩

/-- C15, amended. Provided every copy dispatch succeeds and no feature-match assertion
stops a completion: for every copy-unit list whose source indices are all below `N` and
every order (a permutation of `0..N-1`) of the geomap completions of a frame,
`start_copier idx` dispatches exactly the copy units whose source index is `idx`, in
list order and no others; every completion is handled to the end, each copy unit is
dispatched exactly once in the frame (the copy log is a permutation of the unit
indices), and after any number of completions every unit dispatched so far has its
source camera among the completed ones. -/
theorem start_copier_dispatches_once (env : Env) (res : StitcherResource)
    (out_buf : Option VideoBuffer) (order : List Nat)
    (hperm : order.Perm (List.range env.camera_num))
    (hsrc : ∀ s, s ∈ res.copiers → s < env.camera_num)
    (hlog : res.copy_log = [])
    (hexec : ∀ i, i < res.copiers.length → xcam_ret_is_ok (env.copier_execute i) = true)
    (hfm : ∀ p, p < env.camera_num → env.have_opencv = true → env.fm_enabled = true →
      xcam_ret_is_ok (env.blender_execute p) = true → fm_checks_pass env p) :
    (∀ idx (r : StitcherResource), r.copiers = res.copiers →
      ∃ out, (start_copier env r out_buf idx).2.copy_log = r.copy_log ++ out ∧
        out.Sorted (· < ·) ∧ ∀ i, i ∈ out ↔ r.copiers.get? i = some idx) ∧
    (∃ res1, geomap_done_all env out_buf res order = some res1 ∧
      res1.copy_log.Perm (List.range res.copiers.length)) ∧
    (∀ k, ∃ resk, geomap_done_all env out_buf res (order.take k) = some resk ∧
      ∀ i, i ∈ resk.copy_log →
        ∃ s, res.copiers.get? i = some s ∧ s ∈ order.take k) := by
  have hmem : ∀ x, x ∈ order → x < env.camera_num := fun x hx =>
    List.mem_range.1 (hperm.mem_iff.1 hx)
  have hnodup : order.Nodup := hperm.nodup_iff.2 (List.nodup_range _)
  have hinv0 : CopyInv res.copiers (fun _ => 0) res := by
    refine ⟨rfl, ?_⟩
    intro i
    rw [hlog]
    cases res.copiers.get? i <;> simp
  refine ⟨?_, ?_, ?_⟩
  · intro idx r hc
    unfold start_copier
    obtain ⟨out, h1, _, h3, h4⟩ := start_copier_loop_spec env out_buf idx r.copiers 0 r
      (fun i _ hi => hexec i (by rw [← hc]; omega))
    refine ⟨out, h1, h3, ?_⟩
    intro i
    rw [h4 i]
    simp
  · obtain ⟨r, e, _, hcnt⟩ := geomap_done_all_copy env out_buf res.copiers hexec hfm order
      res _ hmem hinv0
    refine ⟨r, e, ?_⟩
    rw [List.perm_iff_count]
    intro i
    rw [hcnt i]
    by_cases hi : i < res.copiers.length
    · rw [List.get?_eq_get hi]
      simp only [zero_add]
      rw [List.count_eq_one_of_mem hnodup
        (hperm.mem_iff.2 (List.mem_range.2 (hsrc _ (List.get_mem _ _ _))))]
      rw [List.count_eq_one_of_mem (List.nodup_range _) (List.mem_range.2 hi)]
    · rw [List.get?_eq_none.2 (by omega)]
      simp only
      rw [List.count_eq_zero_of_not_mem (fun h => hi (List.mem_range.1 h))]
  · intro k
    have hsub : (order.take k).Sublist order := List.take_sublist k order
    obtain ⟨r, e, _, hcnt⟩ := geomap_done_all_copy env out_buf res.copiers hexec hfm
      (order.take k) res _ (fun x hx => hmem x (hsub.subset hx)) hinv0
    refine ⟨r, e, ?_⟩
    intro i hi
    have hpos : 0 < r.copy_log.count i := List.count_pos_iff.2 hi
    rw [hcnt i] at hpos
    cases hg : res.copiers.get? i with
    | none => rw [hg] at hpos; exact absurd hpos (by simp)
    | some s =>
      rw [hg] at hpos
      simp only [zero_add] at hpos
      exact ⟨s, rfl, List.count_pos_iff.1 hpos⟩

/-- Witness for the amended C15: four copy units (two of them on camera 0) on the
three-camera sample, completions in the order 2, 0, 1. -/
theorem start_copier_dispatches_once_witness :
    (∀ idx (r : StitcherResource), r.copiers = sample_res_four_copiers.copiers →
      ∃ out, (start_copier sample_env r none idx).2.copy_log = r.copy_log ++ out ∧
        out.Sorted (· < ·) ∧ ∀ i, i ∈ out ↔ r.copiers.get? i = some idx) ∧
    (∃ res1, geomap_done_all sample_env none sample_res_four_copiers [2, 0, 1] = some res1 ∧
      res1.copy_log.Perm (List.range sample_res_four_copiers.copiers.length)) ∧
    (∀ k, ∃ resk, geomap_done_all sample_env none sample_res_four_copiers
        ([2, 0, 1].take k) = some resk ∧
      ∀ i, i ∈ resk.copy_log →
        ∃ s, sample_res_four_copiers.copiers.get? i = some s ∧ s ∈ [2, 0, 1].take k) :=
  start_copier_dispatches_once sample_env sample_res_four_copiers none [2, 0, 1]
    (by decide) (by decide) rfl (fun _ _ => rfl)
    (fun p _ _ _ _ => by
      norm_num [fm_checks_pass, fm_right_range, fm_left_range, fm_factor_x, fm_factor_x_with,
        sample_env])

/-! ## Termination -/

theorem stop_unit_eq (p : Pipeline) (i : Nat) :
    stop_unit p i =
      { p with
        res := { p.res with mapper := Function.update p.res.mapper i none }
        mapper_pool := Function.update p.mapper_pool i ((p.mapper_pool i).map BufferPool.stop)
        blender := Function.update p.blender i none } := by
  obtain ⟨⟨a1, a2, a3, a4, a5, a6, a7, a8, a9⟩, b1, b2, b3, b4⟩ := p
  unfold stop_unit
  cases h1 : a4 i <;> cases h2 : b1 i <;> cases h3 : b2 i <;>
    simp [h1, h2, h3, Function.update_eq_self_iff]

theorem stop_units_fold (p : Pipeline) (n : Nat) :
    (List.range n).foldl stop_unit p = stopped_units n p := by
  induction n with
  | zero =>
    obtain ⟨⟨a1, a2, a3, a4, a5, a6, a7, a8, a9⟩, b1, b2, b3, b4⟩ := p
    simp [stopped_units]
  | succ n ih =>
    rw [List.range_succ, List.foldl_append, ih]
    simp only [List.foldl_cons, List.foldl_nil]
    rw [stop_unit_eq]
    obtain ⟨⟨a1, a2, a3, a4, a5, a6, a7, a8, a9⟩, b1, b2, b3, b4⟩ := p
    simp only [stopped_units, Pipeline.mk.injEq, StitcherResource.mk.injEq, true_and, and_true]
    refine ⟨?_, ?_, ?_⟩
    · funext i
      by_cases hi : i = n
      · subst hi; simp
      · rw [Function.update_noteq hi]
        by_cases hlt : i < n
        · simp [hlt, Nat.lt_succ_of_lt hlt]
        · have : ¬ i < n + 1 := by omega
          simp [hlt, this]
    · funext i
      by_cases hi : i = n
      · subst hi; simp
      · rw [Function.update_noteq hi]
        by_cases hlt : i < n
        · simp [hlt, Nat.lt_succ_of_lt hlt]
        · have : ¬ i < n + 1 := by omega
          simp [hlt, this]
    · funext i
      by_cases hi : i = n
      · subst hi; simp
      · rw [Function.update_noteq hi]
        by_cases hlt : i < n
        · simp [hlt, Nat.lt_succ_of_lt hlt]
        · have : ¬ i < n + 1 := by omega
          simp [hlt, this]

theorem stop_copier_eq (p : Pipeline) (i : Nat) :
    stop_copier p i = { p with copier_released := Function.update p.copier_released i true } := by
  obtain ⟨r, b1, b2, b3, b4⟩ := p
  unfold stop_copier
  cases h : b4 i <;> simp [h, Function.update_eq_self_iff]

theorem stop_copiers_fold (p : Pipeline) (n : Nat) :
    (List.range n).foldl stop_copier p = stopped_copiers n p := by
  induction n with
  | zero =>
    obtain ⟨r, b1, b2, b3, b4⟩ := p
    simp [stopped_copiers]
  | succ n ih =>
    rw [List.range_succ, List.foldl_append, ih]
    simp only [List.foldl_cons, List.foldl_nil]
    rw [stop_copier_eq]
    obtain ⟨r, b1, b2, b3, b4⟩ := p
    simp only [stopped_copiers, Pipeline.mk.injEq, true_and]
    funext i
    by_cases hi : i = n
    · subst hi; simp
    · rw [Function.update_noteq hi]
      by_cases hlt : i < n
      · simp [hlt, Nat.lt_succ_of_lt hlt]
      · have : ¬ i < n + 1 := by omega
        simp [hlt, this]

theorem stop_eq (env : Env) (p : Pipeline) :
    stop env p =
      (XCAM_RETURN_NO_ERROR,
        stopped_copiers p.res.copiers.length (stopped_units env.camera_num p)) := by
  unfold stop
  simp only [stop_units_fold, stop_copiers_fold]
  rfl

/-- C13. `StitcherImpl::stop` never fails and is idempotent: from every resource state
(any geomap units, pools, blend units and copy units present or absent, the state before
initialisation included) it returns no-error, and calling it again returns no-error and
leaves the resource exactly as the first call left it. -/
theorem stop_idempotent (env : Env) (p : Pipeline) :
    (stop env p).1 = XCAM_RETURN_NO_ERROR ∧
    (stop env (stop env p).2).1 = XCAM_RETURN_NO_ERROR ∧
    (stop env (stop env p).2).2 = (stop env p).2 ∧
    (stop env Pipeline.empty).1 = XCAM_RETURN_NO_ERROR := by
  refine ⟨by rw [stop_eq], by rw [stop_eq], ?_, by rw [stop_eq]⟩
  simp only [stop_eq]
  obtain ⟨⟨a1, a2, a3, a4, a5, a6, a7, a8, a9⟩, b1, b2, b3, b4⟩ := p
  simp only [stopped_copiers, stopped_units, Pipeline.mk.injEq, StitcherResource.mk.injEq,
    true_and, and_true]
  refine ⟨?_, ?_, ?_, ?_⟩
  · funext i
    by_cases h : i < env.camera_num <;> simp [h]
  · funext i
    by_cases h : i < env.camera_num
    · simp only [h, if_true]
      cases b1 i <;> simp [BufferPool.stop]
    · simp [h]
  · funext i
    by_cases h : i < env.camera_num <;> simp [h]
  · funext i
    by_cases h : i < a5.length <;> simp [h]

/-- Counterexample to C14 as stated: on the initialised three-camera pipeline the only
buffer of the pool of camera 0 was taken at initialisation; after `stop` the geomap and
blend units are gone and the pool is stopped, but the geomap, blender and copier
parameters still reference that buffer and the pool still holds no buffer: the buffer has
not been returned. -/
theorem stop_leaves_buffer_outstanding :
    sample_pipeline.mapper_pool 0 = some ⟨true, []⟩ ∧
    (sample_pipeline.res.mapper_param 0).out_buf = some ⟨0⟩ ∧
    ((stop sample_env_fm_none sample_pipeline).2.res.mapper 0 = none ∧
      (stop sample_env_fm_none sample_pipeline).2.blender 0 = none ∧
      (stop sample_env_fm_none sample_pipeline).2.mapper_pool 0 = some ⟨false, []⟩) ∧
    ((stop sample_env_fm_none sample_pipeline).2.res.mapper_param 0).out_buf = some ⟨0⟩ ∧
    ((stop sample_env_fm_none sample_pipeline).2.res.blender_param 0).in_buf = some ⟨0⟩ ∧
    ((stop sample_env_fm_none sample_pipeline).2.res.blender_param 2).in1_buf = some ⟨0⟩ ∧
    ((stop sample_env_fm_none sample_pipeline).2.copier_param 0).in_buf = some ⟨0⟩ :=
  ⟨rfl, rfl, ⟨rfl, rfl, rfl⟩, rfl, rfl, rfl, rfl⟩

/-- C14, amended. `stop` releases every geomap and blend unit of the cameras below `N`,
stops their pools and releases every copy unit, but it does not touch the geomap, blender
and copier parameters and returns no buffer: the parameters reference after `stop` the
same slice buffers as before, and every pool holds after `stop` exactly the buffers it
held before. -/
theorem stop_keeps_parameters (env : Env) (p : Pipeline) :
    (stop env p).2.res.mapper_param = p.res.mapper_param ∧
    (stop env p).2.res.blender_param = p.res.blender_param ∧
    (stop env p).2.copier_param = p.copier_param ∧
    (∀ i, i < env.camera_num →
      (stop env p).2.res.mapper i = none ∧ (stop env p).2.blender i = none ∧
      (stop env p).2.mapper_pool i = (p.mapper_pool i).map BufferPool.stop) ∧
    (∀ i, ((stop env p).2.mapper_pool i).map BufferPool.free =
      (p.mapper_pool i).map BufferPool.free) ∧
    (∀ i, i < p.res.copiers.length → (stop env p).2.copier_released i = true) := by
  rw [stop_eq]
  refine ⟨rfl, rfl, rfl, ?_, ?_, ?_⟩
  · intro i hi
    simp [stopped_copiers, stopped_units, hi]
  · intro i
    simp only [stopped_copiers, stopped_units]
    by_cases hi : i < env.camera_num
    · simp only [hi, if_true]
      cases p.mapper_pool i <;> simp [BufferPool.stop]
    · simp [hi]
  · intro i hi
    simp [stopped_copiers, stopped_units, hi]

/-! ## Slice buffers across frames -/

theorem update_geomap_factors_param (env : Env) (res : StitcherResource) (idx : Nat) :
    (update_geomap_factors env res idx).2.mapper_param = res.mapper_param := by
  unfold update_geomap_factors
  cases hm : res.mapper idx with
  | none => rfl
  | some mapper =>
    simp only
    by_cases hmode : env.scale_mode = GeoMapScaleMode.ScaleSingleConst
    · simp only [hmode, if_true]
      by_cases hz : (env.double_equal_around mapper.factor_x 0 ||
          env.double_equal_around mapper.factor_y 0) = true
      · simp only [hz, if_true]
      · simp only [hz, if_false, Bool.false_eq_true, calc_geomap_factors]
    · simp only [hmode, if_false]

theorem start_geo_mappers_loop_all_ok (env : Env) (in_bufs : Nat → Option VideoBuffer) :
    ∀ (n idx : Nat) (res : StitcherResource),
      (∀ j, idx ≤ j → j < idx + n → xcam_ret_is_ok (env.mapper_execute j) = true) →
      (start_geo_mappers_loop env in_bufs n idx res).1 = XCAM_RETURN_NO_ERROR ∧
      (start_geo_mappers_loop env in_bufs n idx res).2.geomap_log =
        res.geomap_log ++ List.range' idx n ∧
      ∀ k, ((start_geo_mappers_loop env in_bufs n idx res).2.mapper_param k).out_buf =
        (res.mapper_param k).out_buf := by
  intro n
  induction n with
  | zero =>
    intro idx res _
    refine ⟨rfl, ?_, fun _ => rfl⟩
    simp [start_geo_mappers_loop]
  | succ n ih =>
    intro idx res hexec
    have h0 : xcam_ret_is_ok (env.mapper_execute idx) = true :=
      hexec idx (Nat.le_refl _) (by omega)
    have hlog : (if env.fm_enabled = true then (update_geomap_factors env res idx).2
        else res).geomap_log = res.geomap_log := by
      by_cases hen : env.fm_enabled = true
      · simp only [hen, if_true]; exact update_geomap_factors_log env res idx
      · simp only [hen, if_false, Bool.false_eq_true]
    have hpar : (if env.fm_enabled = true then (update_geomap_factors env res idx).2
        else res).mapper_param = res.mapper_param := by
      by_cases hen : env.fm_enabled = true
      · simp only [hen, if_true]; exact update_geomap_factors_param env res idx
      · simp only [hen, if_false, Bool.false_eq_true]
    unfold start_geo_mappers_loop
    simp only [h0, Bool.not_true, Bool.false_eq_true, if_false]
    obtain ⟨e1, e2, e3⟩ := ih (idx + 1)
      { (if env.fm_enabled = true then (update_geomap_factors env res idx).2 else res) with
        mapper_param := Function.update
          (if env.fm_enabled = true then (update_geomap_factors env res idx).2
            else res).mapper_param idx
          { (if env.fm_enabled = true then (update_geomap_factors env res idx).2
              else res).mapper_param idx with in_buf := in_bufs idx }
        geomap_log := (if env.fm_enabled = true then (update_geomap_factors env res idx).2
          else res).geomap_log ++ [idx] }
      (fun j h1 h2 => hexec j (by omega) (by omega))
    refine ⟨e1, ?_, ?_⟩
    · rw [e2]
      simp only [hlog, List.append_assoc, List.singleton_append, List.range'_succ]
    · intro k
      rw [e3 k]
      simp only [hpar]
      by_cases hk : k = idx
      · rw [hk, Function.update_same]
      · rw [Function.update_noteq hk]

/-- Counterexample to C16 as stated: on the initialised three-camera pipeline (pool
capacity 1, the buffer of camera 0 taken at initialisation and still held, its pool
empty) a first and then a second stitch both return no-error; the second dispatches the
geomap units of cameras 0, 1 and 2 again, onto the same slice buffers. -/
theorem second_stitch_not_refused :
    GEOMAP_POOL_SIZE = 1 ∧
    sample_pipeline.mapper_pool 0 = some ⟨true, []⟩ ∧
    ∃ res1 res2,
      stitch_buffers sample_env_fm_none sample_pipeline.res [⟨10⟩, ⟨11⟩, ⟨12⟩] none =
        Outcome.returned XCAM_RETURN_NO_ERROR res1 ∧
      (res1.mapper_param 0).out_buf = some ⟨0⟩ ∧
      stitch_buffers sample_env_fm_none res1 [⟨20⟩, ⟨21⟩, ⟨22⟩] none =
        Outcome.returned XCAM_RETURN_NO_ERROR res2 ∧
      res2.geomap_log = [0, 1, 2, 0, 1, 2] ∧
      (res2.mapper_param 0).out_buf = some ⟨0⟩ :=
  ⟨rfl, rfl, _, _, rfl, rfl, rfl, rfl, rfl⟩

/-- C16, amended. With the per-camera pool capacity fixed at 1, the slice buffer of each
camera is taken from its pool once, at initialisation, and a stitch acquires nothing: for
a non-empty input list and geomap dispatches that all succeed, `stitch_buffers` returns
no-error whether or not an earlier frame still uses the slice buffers, dispatches the
geomap unit of every camera in camera order, and leaves every camera's slice buffer
`mapper_param[idx]->out_buf` the one it was; no resource-exhaustion error arises. -/
theorem stitch_buffers_reuses_slice_buffers (env : Env) (res : StitcherResource)
    (in_bufs : List VideoBuffer) (out_buf : Option VideoBuffer)
    (hne : in_bufs ≠ [])
    (hexec : ∀ j, j < env.camera_num → xcam_ret_is_ok (env.mapper_execute j) = true) :
    ∃ res1, stitch_buffers env res in_bufs out_buf =
        Outcome.returned XCAM_RETURN_NO_ERROR res1 ∧
      res1.geomap_log = res.geomap_log ++ List.range env.camera_num ∧
      ∀ idx, (res1.mapper_param idx).out_buf = (res.mapper_param idx).out_buf := by
  obtain ⟨e1, e2, e3⟩ := start_geo_mappers_loop_all_ok env (fun i => in_bufs.get? i)
    env.camera_num 0 res (fun j _ hj => hexec j (by omega))
  have hempty : in_bufs.isEmpty = false := by
    cases in_bufs with
    | nil => exact absurd rfl hne
    | cons a t => rfl
  have hlen : in_bufs.length > 0 := by
    cases in_bufs with
    | nil => exact absurd rfl hne
    | cons a t => simp
  unfold stitch_buffers execute_buffer start_work start_geo_mappers
  simp only [hempty, Bool.false_eq_true, if_false, hlen, if_true, e1, xcam_ret_is_ok,
    decide_True, Bool.not_true]
  refine ⟨_, rfl, ?_, e3⟩
  rw [e2, List.range_eq_range']

/-- Witness for the amended C16: a stitch on the initialised three-camera pipeline. -/
theorem stitch_buffers_reuses_slice_buffers_witness :
    ∃ res1, stitch_buffers sample_env_fm_none sample_pipeline.res [⟨10⟩, ⟨11⟩, ⟨12⟩] none =
        Outcome.returned XCAM_RETURN_NO_ERROR res1 ∧
      res1.geomap_log = sample_pipeline.res.geomap_log ++
        List.range sample_env_fm_none.camera_num ∧
      ∀ idx, (res1.mapper_param idx).out_buf = (sample_pipeline.res.mapper_param idx).out_buf :=
  stitch_buffers_reuses_slice_buffers sample_env_fm_none sample_pipeline.res
    [⟨10⟩, ⟨11⟩, ⟨12⟩] none (by simp) (fun _ _ => rfl)

/-! ## Configuration -/

/-- C19. A missing output size is fatal at configure time: whenever the six estimation
steps and `init_resource` succeed and the configured output width or output height is 0,
`configure_resource` returns `XCAM_RETURN_ERROR_PARAM` and the output video info is left
as it was, not set. -/
theorem configure_resource_needs_output_size (env : Env) (cfg : Setup) (p p1 : Pipeline)
    (out_video_info : Option VideoBufferInfo) (ret : XCamReturn)
    (h1 : xcam_ret_is_ok cfg.init_camera_info = true)
    (h2 : xcam_ret_is_ok cfg.estimate_round_slices = true)
    (h3 : xcam_ret_is_ok cfg.estimate_coarse_crops = true)
    (h4 : xcam_ret_is_ok cfg.mark_centers = true)
    (h5 : xcam_ret_is_ok cfg.estimate_overlap = true)
    (h6 : xcam_ret_is_ok cfg.update_copy_areas = true)
    (hinit : init_resource env cfg p = Outcome.returned ret p1)
    (hret : xcam_ret_is_ok ret = true)
    (hzero : cfg.output_width = 0 ∨ cfg.output_height = 0) :
    configure_resource env cfg p out_video_info =
      Outcome.returned XCAM_RETURN_ERROR_PARAM (p1, out_video_info) := by
  unfold configure_resource
  simp only [h1, h2, h3, h4, h5, h6, hinit, hret, Bool.not_true, Bool.false_eq_true, if_false]
  have hsize : ¬ (cfg.output_width ≠ 0 ∧ cfg.output_height ≠ 0) := by
    rintro ⟨a, b⟩
    rcases hzero with h | h
    · exact a h
    · exact b h
  rw [if_neg hsize]

/-- Witness for C19: the three-camera sample configured without an output size. -/
theorem configure_resource_needs_output_size_witness :
    configure_resource sample_env_fm_none sample_setup_no_size Pipeline.empty none =
      Outcome.returned XCAM_RETURN_ERROR_PARAM
        ((init_resource sample_env_fm_none sample_setup_no_size Pipeline.empty).res, none) :=
  configure_resource_needs_output_size sample_env_fm_none sample_setup_no_size Pipeline.empty
    _ none XCAM_RETURN_NO_ERROR rfl rfl rfl rfl rfl rfl rfl rfl (Or.inl rfl)

/-! ## Pair synchroniser with a feature match that stops the frame -/

/-- Counterexample to C1 as stated: three cameras, all pair counters at 0 with target 2,
completions in the order 2, 0, 1 and every blend dispatch returning no-error, but feature
matching enabled with a measured offset that gives the factor 2.0. The completion of
camera 0 dispatches blend 2, whose feature match stops at the assertion: the completions
are not all handled, so blends 0 and 1 are never dispatched in the frame. -/
theorem geomap_done_stopped_by_feature_match :
    2 ≤ sample_env_factor_two.camera_num ∧
    sample_env_factor_two.camera_num ≤ XCAM_STITCH_MAX_CAMERAS ∧
    [2, 0, 1].Perm (List.range sample_env_factor_two.camera_num) ∧
    (∀ p, sample_res.blender_sync p = Sync.create 2) ∧
    (∀ p, xcam_ret_is_ok (sample_env_factor_two.blender_execute p) = true) ∧
    geomap_done_all sample_env_factor_two none sample_res [2, 0, 1] = none ∧
    (∃ res1, geomap_done_all sample_env_factor_two none sample_res [2] = some res1 ∧
      res1.blend_log = []) := by
  have hfail : ¬ fm_checks_pass sample_env_factor_two 2 := by
    norm_num [fm_checks_pass, fm_right_range, fm_factor_x, fm_factor_x_with,
      sample_env_factor_two, sample_env]
  have hrun : ∀ res, start_feature_match sample_env_factor_two res 2 =
      Outcome.assert_failed res :=
    fun res => start_feature_match_of_fail sample_env_factor_two res 2 rfl hfail
  have hnum : sample_env_factor_two.camera_num = 3 := rfl
  have hexec : ∀ p, sample_env_factor_two.blender_execute p = XCAM_RETURN_NO_ERROR :=
    fun _ => rfl
  have hcopy : ∀ i, sample_env_factor_two.copier_execute i = XCAM_RETURN_NO_ERROR :=
    fun _ => rfl
  have hcv : sample_env_factor_two.have_opencv = true := rfl
  have hen : sample_env_factor_two.fm_enabled = true := rfl
  refine ⟨by decide, by decide, by decide, fun _ => rfl, fun _ => rfl, ?_, ?_⟩
  · simp [geomap_done_all, geomap_done, start_blenders, start_blender, update_blender_sync,
      hrun, hnum, hexec, hcopy, hcv, hen, Sync.is_synced, Sync.increment, Sync.reset,
      Sync.create, sample_res, xcam_ret_is_ok, start_copier, start_copier_loop,
      Function.update]
  · exact ⟨_, rfl, rfl⟩

end XCam
